import Mathlib

/-!
# wmko-keyword-datasource: the per-query pipeline of `pkg/plugin/datasource.go`

A shallow embedding of `KeywordDatasource.query` and `KeywordDatasource.QueryData`, and the
properties of the retrieval-and-transform pipeline proved on it.

Modelling conventions.

* `float64` is `F64`: NaN, the two infinities, or a finite value given by its sign, its
  integer significand and its binary exponent.  Every operation computes its exact result
  and rounds it to the nearest float64, ties to even, with overflow to an infinity, gradual
  underflow and signed zeros, as IEEE-754 binary64 and Go do.  The conversion `int64(x)` of
  a float64 that does not fit, which Go leaves to the implementation, is the one of amd64.
* `time.Time` is a count of nanoseconds since the Unix epoch; `time.Unix` keeps the seconds
  in the 64-bit counter of the Go library, which wraps around.  `time.Duration` is a signed
  64-bit count of nanoseconds (`Time.Sub` saturates as the Go library documents).
* `int32` and `int` values are integers; the only arithmetic on them is `count - 1` and the
  loop counters, which stay inside the 32-bit range whenever the allocations succeed.
* The store is an interface of three calls (`QueryRowType`, `QueryRowCount`, `Query`) whose
  answers are inputs of the model, as is the result of `json.Unmarshal`; the count and the
  rows of the fetch are independent answers, since no transaction spans the two statements.
  A cursor is the list of rows it has yet to deliver; `rows.Err()` reports an error only
  after `rows.Next()` has returned false.
* A Go run-time panic is the `Except.error` side of `Except Panic`.
* Slices are lists: `make` builds the zero-valued list, `xs[i] = v` is `store`, `xs[i]` is
  `index`, both checked against the length.
-/

namespace Plugin

/-! ## float64 -/

/-- The float64 values: NaN, the two infinities, and the finite values
`(-1)^neg * m * 2^e`.  A float64 proper has `m < 2^53`, `-1074 ≤ e ≤ 971` and `2^52 ≤ m`
unless `e = -1074` (zero and the subnormals); the two zeros are `m = 0`, `e = -1074`. -/
inductive F64 where
  | nan
  | inf (neg : Bool)
  | fin (neg : Bool) (m : ℕ) (e : ℤ)
  deriving DecidableEq, Repr

namespace F64

/-- The float64 zero value of Go, `+0`. -/
def zero : F64 := fin false 0 (-1074)

instance : Inhabited F64 := ⟨zero⟩

/-- Whether the value has the shape of a float64 proper. -/
def isFloat64 : F64 → Bool
  | nan => true
  | inf _ => true
  | fin _ m e => decide (m < 2 ^ 53 ∧ -1074 ≤ e ∧ e ≤ 971 ∧ (2 ^ 52 ≤ m ∨ e = -1074))

/-- The power `2^k` for `k ≥ 0`, and 1 for a negative `k`. -/
def pow2 (k : ℤ) : ℕ := 1 <<< k.toNat

/-- Bisection for `log2`: given `2^lo ≤ n < 2^(lo + 2^fuel)`, the exponent `k` with
`2^k ≤ n < 2^(k+1)`. -/
def log2Bisect : ℕ → ℕ → ℕ → ℕ
  | 0, lo, _ => lo
  | fuel + 1, lo, n =>
    if 1 <<< (lo + 2 ^ fuel) ≤ n then log2Bisect fuel (lo + 2 ^ fuel) n
    else log2Bisect fuel lo n

/-- The integer `⌊log2 n⌋` for `1 ≤ n < 2^4096`, which covers every exact intermediate result
of a float64 operation. -/
def log2 (n : ℕ) : ℕ := log2Bisect 12 0 n

/-- The integer `⌊log2 (num / den)⌋` for positive `num` and `den`. -/
def floorLog2 (num den : ℕ) : ℤ :=
  let l : ℤ := (log2 num : ℤ) - (log2 den : ℤ)
  if den * pow2 l ≤ num * pow2 (-l) then l else l - 1

/-- The float64 nearest to `(-1)^neg * num / den`, ties to the even significand: the
rounding every float64 operation applies to its exact result.  Results of magnitude `2^1024`
or more overflow to an infinity, results below half the least subnormal become a zero. -/
def nearest (neg : Bool) (num den : ℕ) : F64 :=
  if num = 0 then fin neg 0 (-1074)
  else
    let e : ℤ := max (floorLog2 num den - 52) (-1074)
    let a := num * pow2 (-e)
    let b := den * pow2 e
    let q := a / b
    let r := a % b
    let m := if b < 2 * r ∨ (2 * r = b ∧ q % 2 = 1) then q + 1 else q
    if m = 2 ^ 53 then (if 971 < e + 1 then inf neg else fin neg (2 ^ 52) (e + 1))
    else if 971 < e then inf neg
    else fin neg m e

/-- Go `float64(i)` for an integer `i`. -/
def ofInt (i : ℤ) : F64 := nearest (decide (i < 0)) i.natAbs 1

/-- The float64 of magnitude `n` for `n < 2^53`, which is exact. -/
def ofSmallNat (neg : Bool) (n : ℕ) : F64 :=
  if n = 0 then fin neg 0 (-1074)
  else
    let k := 52 - log2 n
    fin neg (n * 2 ^ k) (-(k : ℤ))

/-- The integer `(-1)^neg * n`. -/
def signed (neg : Bool) (n : ℕ) : ℤ := if neg then -(n : ℤ) else (n : ℤ)

/-- Unary minus. -/
def neg : F64 → F64
  | nan => nan
  | inf s => inf (!s)
  | fin s m e => fin (!s) m e

/-- Go `x + y` on float64. -/
def add : F64 → F64 → F64
  | nan, _ => nan
  | _, nan => nan
  | inf s, inf t => if s = t then inf s else nan
  | inf s, fin _ _ _ => inf s
  | fin _ _ _, inf t => inf t
  | fin s1 m1 e1, fin s2 m2 e2 =>
    let e := min e1 e2
    let sum : ℤ := signed s1 (m1 * pow2 (e1 - e)) + signed s2 (m2 * pow2 (e2 - e))
    if sum = 0 then fin (s1 && s2) 0 (-1074)
    else nearest (decide (sum < 0)) (sum.natAbs * pow2 e) (pow2 (-e))

/-- Go `x - y` on float64. -/
def sub (x y : F64) : F64 := add x (neg y)

/-- Go `x * y` on float64. -/
def mul : F64 → F64 → F64
  | nan, _ => nan
  | _, nan => nan
  | inf s, inf t => inf (xor s t)
  | inf s, fin t m _ => if m = 0 then nan else inf (xor s t)
  | fin s m _, inf t => if m = 0 then nan else inf (xor s t)
  | fin s1 m1 e1, fin s2 m2 e2 =>
    nearest (xor s1 s2) (m1 * m2 * pow2 (e1 + e2)) (pow2 (-(e1 + e2)))

/-- Go `x / y` on float64: division by zero yields an infinity (NaN for `0 / 0`), it does
not panic. -/
def div : F64 → F64 → F64
  | nan, _ => nan
  | _, nan => nan
  | inf _, inf _ => nan
  | inf s, fin t _ _ => inf (xor s t)
  | fin s _ _, inf t => fin (xor s t) 0 (-1074)
  | fin s1 m1 e1, fin s2 m2 e2 =>
    if m2 = 0 then (if m1 = 0 then nan else inf (xor s1 s2))
    else nearest (xor s1 s2) (m1 * pow2 (e1 - e2)) (m2 * pow2 (e2 - e1))

/-- Go `math.Round`: the nearest integer, halves away from zero; NaN, the infinities and the
zeros are returned unchanged, and the sign is kept. -/
def Round : F64 → F64
  | nan => nan
  | inf s => inf s
  | fin s m e =>
    if 0 ≤ e then fin s m e
    else ofSmallNat s ((2 * m + pow2 (-e)) / (2 * pow2 (-e)))

/-- Go `math.Modf`: the integer part, truncated toward zero, and the fractional part; both
carry the sign of the argument. -/
def Modf : F64 → F64 × F64
  | nan => (nan, nan)
  | inf s => (inf s, nan)
  | fin s m e =>
    if 0 ≤ e then (fin s m e, fin s 0 (-1074))
    else
      let int := ofSmallNat false (m / pow2 (-e))
      match sub (fin false m e) int with
      | fin _ fm fe => (if s then neg int else int, fin s fm fe)
      | other => (if s then neg int else int, other)

/-- Go `int64(x)` for a float64: truncation toward zero; a value that does not fit, NaN
included, converts to the least int64 (the result the Go specification leaves to the
implementation, here as on amd64). -/
def toInt64 : F64 → ℤ
  | nan => -(2 ^ 63)
  | inf _ => -(2 ^ 63)
  | fin s m e =>
    let n : ℕ := m * pow2 e / pow2 (-e)
    let v := signed s n
    if -(2 ^ 63) ≤ v ∧ v < 2 ^ 63 then v else -(2 ^ 63)

/-- The exact value of a finite float64 (0 for NaN and the infinities). -/
def toRat : F64 → ℚ
  | fin s m e => (if s then -1 else 1) * (m : ℚ) * (2 : ℚ) ^ e
  | _ => 0

end F64

/-- Numerator of Go `math.Pi`, the decimal constant as the `math` package declares it
(`3.14159265358979323846264338327950288419716939937510582097494459`), over `Math.PiDen`. -/
def Math.PiNum : ℕ := 314159265358979323846264338327950288419716939937510582097494459

/-- Denominator of Go `math.Pi`: the constant has 62 decimals. -/
def Math.PiDen : ℕ := 10 ^ 62

/-! ## time.Time and time.Duration -/

/-- Go `time.Duration`: signed nanoseconds. -/
structure Duration where
  ns : ℤ
  deriving DecidableEq, Repr

/-- Go `time.Time`: the instant, as nanoseconds relative to the Unix epoch.  The Go library
keeps the seconds since the year 1 in an int64; `time.Unix` below wraps accordingly, so that
equality and order of the model are `Equal` and `Before` of the library. -/
structure Time where
  unixNano : ℤ
  deriving DecidableEq, Repr

instance : Inhabited Time := ⟨⟨0⟩⟩

/-- Largest `time.Duration`. -/
def maxDuration : ℤ := 2 ^ 63 - 1

/-- Smallest `time.Duration`. -/
def minDuration : ℤ := -(2 ^ 63)

/-- The constant `unixToInternal` of the Go library: the seconds from 1 January of the
year 1 to the Unix epoch. -/
def unixToInternal : ℤ := 62135596800

/-- The value a 64-bit signed integer holds after an arithmetic result `i`: two's complement
wrap-around. -/
def wrapInt64 (i : ℤ) : ℤ := (i + 2 ^ 63) % 2 ^ 64 - 2 ^ 63

/-- Go `time.Unix(sec, nsec)`: `nsec` is brought into `[0, 1e9)` by carrying whole seconds
into `sec`, and the instant is stored as `sec + unixToInternal` in an int64, which wraps
around; for seconds within about 292 billion years of the epoch the result is the instant
`sec * 1e9 + nsec`. -/
def Time.Unix (sec nsec : ℤ) : Time :=
  let total := sec * 1000000000 + nsec
  let s := total / 1000000000
  let n := total % 1000000000
  ⟨(wrapInt64 (s + unixToInternal) - unixToInternal) * 1000000000 + n⟩

/-- Go `t.Sub(u)`: the duration `t - u`, replaced by the largest or smallest duration when
it does not fit. -/
def Time.Sub (t u : Time) : Duration :=
  let d := t.unixNano - u.unixNano
  if d > maxDuration then ⟨maxDuration⟩
  else if d < minDuration then ⟨minDuration⟩
  else ⟨d⟩

/-- Go `d.Seconds()`: `sec := d / Second; nsec := d % Second;
return float64(sec) + float64(nsec)/1e9`. -/
def Duration.Seconds (d : Duration) : F64 :=
  let sec := d.ns.tdiv 1000000000
  let nsec := d.ns.tmod 1000000000
  F64.add (F64.ofInt sec) (F64.div (F64.ofInt nsec) (F64.ofInt 1000000000))

/-- Go `t.UnixNano()`: the nanoseconds since the epoch as an int64, which wraps around for
instants before the year 1678 or after 2262. -/
def Time.UnixNano (t : Time) : ℤ := wrapInt64 t.unixNano

/-- Go `float64(t.UnixNano()) * 1e-9`. -/
def Time.unixSeconds (t : Time) : F64 :=
  F64.mul (F64.ofInt t.UnixNano) (F64.nearest false 1 1000000000)

/-- The instant the fetch loop builds from a floating Unix timestamp:
`sec, dec := math.Modf(timetemp); time.Unix(int64(sec), int64(dec*(1e9)))`. -/
def decodeTime (timetemp : F64) : Time :=
  let sd := F64.Modf timetemp
  Time.Unix (F64.toInt64 sd.1) (F64.toInt64 (F64.mul sd.2 (F64.ofInt 1000000000)))

/-! ## Slices, panics and strings -/

deriving instance DecidableEq for Except

/-- The run-time panics the pipeline can raise. -/
inductive Panic where
  | indexOutOfRange (index length : Nat)
  | makesliceLenOutOfRange
  deriving DecidableEq, Repr

/-- Go `make([]T, n)` with the zero value `z`: a negative length panics. -/
def make {α : Type} (n : ℤ) (z : α) : Except Panic (List α) :=
  if n < 0 then .error .makesliceLenOutOfRange else .ok (List.replicate n.toNat z)

/-- Go `xs[i]` as an expression: an index past the end panics. -/
def index {α : Type} (xs : List α) (i : Nat) : Except Panic α :=
  match xs[i]? with
  | some x => .ok x
  | none => .error (.indexOutOfRange i xs.length)

/-- Go `xs[i] = v`: an index past the end panics. -/
def store {α : Type} (xs : List α) (i : Nat) (v : α) : Except Panic (List α) :=
  if i < xs.length then .ok (xs.set i v) else .error (.indexOutOfRange i xs.length)

/-- Worker of `Split`: `cur` holds the current segment, reversed. -/
def splitAux : List Char → List Char → List String
  | [], cur => [String.mk cur.reverse]
  | c :: cs, cur =>
    if c = '.' then String.mk cur.reverse :: splitAux cs [] else splitAux cs (c :: cur)

/-- Go `strings.Split(s, ".")`. -/
def Split (s : String) : List String := splitAux s.data []

/-- Go `pq.QuoteIdentifier`: cut at the first NUL, double every double quote, wrap in double
quotes. -/
def QuoteIdentifier (name : String) : String :=
  let dq := Char.ofNat 34
  let cut := name.data.takeWhile (fun c => c ≠ Char.ofNat 0)
  String.mk (dq :: (cut.flatMap (fun c => if c = dq then [dq, dq] else [c])) ++ [dq])

/-! ## Requests, responses and the store -/

/-- Errors a response can carry. -/
inductive Error where
  | unmarshal (msg : String)
  | store (msg : String)
  | unknownUnitConversion (code : ℤ)
  | unknownTransform (code : ℤ)
  | rowQuery (msg : String)
  deriving DecidableEq, Repr

/-- Go `backend.TimeRange`. -/
structure TimeRange where
  From : Time
  To : Time
  deriving DecidableEq, Repr

/-- The decoded query payload, the struct `queryModel` of the source. -/
structure queryModel where
  Format : String
  QueryText : String
  UnitConversion : ℤ
  Transform : ℤ
  IntervalMs : ℤ
  MaxDataPoints : ℤ
  OrgId : ℤ
  RefId : String
  Hide : Bool
  deriving DecidableEq, Repr

/-- Go `backend.DataQuery`; `JSON` holds what `json.Unmarshal(query.JSON, &qm)` yields, the
decoded model or the decoding error. -/
structure DataQuery where
  RefID : String
  JSON : Except String queryModel
  TimeRange : TimeRange

/-- A column of a frame, `data.NewField(name, nil, values)`. -/
inductive Field where
  | times (name : String) (values : List Time)
  | floats (name : String) (values : List F64)
  | strings (name : String) (values : List String)
  deriving DecidableEq, Repr

/-- Number of entries of a column. -/
def Field.len : Field → Nat
  | .times _ v => v.length
  | .floats _ v => v.length
  | .strings _ v => v.length

/-- Go `data.Frame`. -/
structure Frame where
  Name : String
  RefID : String
  Fields : List Field
  deriving DecidableEq, Repr

/-- Go `backend.DataResponse`. -/
structure DataResponse where
  Frames : List Frame
  Error : Option Error
  deriving DecidableEq, Repr

/-- Outcome of `db.QueryRow(...).Scan(&x)`: `sql.ErrNoRows`, a scanned value, or another
error. -/
inductive ScanResult (α : Type) where
  | noRows
  | ok (a : α)
  | failed (msg : String)
  deriving DecidableEq, Repr

/-- One row `(time, trim(binvalue))` of the ordered fetch.  `str` and `flt` are what
`rows.Scan` yields for the row when the value destination is a string, respectively a
float64.  -/
structure Row where
  time : F64
  str : Except String String
  flt : Except String F64
  deriving DecidableEq

/-- The answer of the store to the ordered fetch: the rows in the order delivered and the
error, if any, that ends the iteration after them. -/
structure RowSet where
  rows : List Row
  failure : Option String
  deriving DecidableEq

/-- Go `*sql.Rows`: the rows not yet delivered, and the error `rows.Err()` reports. -/
structure Rows where
  pending : List Row
  failure : Option String
  lasterr : Option String
  deriving DecidableEq

/-- Go `rows.Next()`: the next row when there is one; at the end the iteration error, if
any, becomes visible to `rows.Err()`. -/
def Rows.Next (rs : Rows) : Option Row × Rows :=
  match rs.pending with
  | [] => (none, { rs with lasterr := rs.failure })
  | r :: rest => (some r, { rs with pending := rest })

/-- Go `rows.Err()`. -/
def Rows.Err (rs : Rows) : Option String := rs.lasterr

/-- The store as the pipeline sees it.  `QueryRowType service keyword` is the single-row
lookup in `ktlmeta`, `QueryRowCount table keyword from to` the count over the window and
`Query table keyword from to` the ordered fetch. -/
structure DB where
  QueryRowType : String → String → ScanResult String
  QueryRowCount : String → String → F64 → F64 → ScanResult ℤ
  Query : String → String → F64 → F64 → Except String RowSet

/-! ## Unit conversion -/

def UNIT_CONVERT_NONE : ℤ := 0
def UNIT_CONVERT_DEG_TO_RAD : ℤ := 1
def UNIT_CONVERT_RAD_TO_DEG : ℤ := 2
def UNIT_CONVERT_RAD_TO_ARCSEC : ℤ := 3
def UNIT_CONVERT_K_TO_C : ℤ := 4
def UNIT_CONVERT_C_TO_K : ℤ := 5

def TRANSFORM_NONE : ℤ := 0
def TRANSFORM_FIRST_DERIVATVE : ℤ := 1
def TRANSFORM_FIRST_DERIVATVE_1HZ : ℤ := 2
def TRANSFORM_FIRST_DERIVATVE_10HZ : ℤ := 3
def TRANSFORM_FIRST_DERIVATVE_100HZ : ℤ := 4
def TRANSFORM_DELTA : ℤ := 5

/-- The constant `math.Pi / 180` of the source: an untyped constant expression, evaluated
exactly and converted to the nearest float64 where it meets `valtemp_float`. -/
def DEG_TO_RAD : F64 := F64.nearest false Math.PiNum (Math.PiDen * 180)

/-- The constant `180 / math.Pi` of the source, as a float64. -/
def RAD_TO_DEG : F64 := F64.nearest false (180 * Math.PiDen) Math.PiNum

/-- The constant `3600 * 180 / math.Pi` of the source, as a float64. -/
def RAD_TO_ARCSEC : F64 := F64.nearest false (3600 * 180 * Math.PiDen) Math.PiNum

/-- The constant `273.15` of the source, as a float64. -/
def KELVIN_OFFSET : F64 := F64.nearest false 27315 100

/-- The `switch qm.UnitConversion` of the fetch loop; `none` is its `default` branch. -/
def unitConvert (code : ℤ) (valtemp_float : F64) : Option F64 :=
  if code = UNIT_CONVERT_NONE then some valtemp_float
  else if code = UNIT_CONVERT_DEG_TO_RAD then some (F64.mul valtemp_float DEG_TO_RAD)
  else if code = UNIT_CONVERT_RAD_TO_DEG then some (F64.mul valtemp_float RAD_TO_DEG)
  else if code = UNIT_CONVERT_RAD_TO_ARCSEC then some (F64.mul valtemp_float RAD_TO_ARCSEC)
  else if code = UNIT_CONVERT_K_TO_C then some (F64.add valtemp_float KELVIN_OFFSET)
  else if code = UNIT_CONVERT_C_TO_K then some (F64.sub valtemp_float KELVIN_OFFSET)
  else none

/-! ## The fetch loop -/

/-- What a loop body hands on: the next state, or the response of a `return response`. -/
inductive Flow (σ : Type) where
  | next (s : σ)
  | ret (r : DataResponse)

/-- The empty frame `empty_frame`: `data.NewFrame("response")` with one field `time` holding
the two endpoints of the requested range. -/
def emptyFrame (tr : TimeRange) : Frame :=
  { Name := "response", RefID := "", Fields := [Field.times "time" [tr.From, tr.To]] }

/-- The variables the fetch loop reads and writes. -/
structure FetchState where
  rows : Rows
  timetemp : F64
  valtemp_float : F64
  valtemp_string : String
  times : List Time
  values_floats : List F64
  values_strings : List String

/-- The `if rows.Next() { ... rows.Scan ... }` part of the loop body: the temporaries are
overwritten only when a row is delivered; an `Except.error` is the scan error. -/
def scanNext (keyword_type : String) (st : FetchState) : Except String FetchState :=
  match st.rows.Next with
  | (none, rows) => .ok { st with rows := rows }
  | (some r, rows) =>
    if keyword_type = "KTL_STRING" then
      match r.str with
      | .ok s => .ok { st with rows := rows, timetemp := r.time, valtemp_string := s }
      | .error e => .error e
    else
      match r.flt with
      | .ok v => .ok { st with rows := rows, timetemp := r.time, valtemp_float := v }
      | .error e => .error e

/-- One iteration of `for i = 0; i < count; i++` (source lines 292-362). -/
def fetchBody (keyword_type : String) (qm : queryModel) (empty_frame : Frame) (i : Nat)
    (st : FetchState) : Except Panic (Flow FetchState) :=
  match scanNext keyword_type st with
  | .error e => .ok (.ret { Frames := [empty_frame], Error := some (.store e) })
  | .ok st =>
    match store st.times i (decodeTime st.timetemp) with
    | .error p => .error p
    | .ok times =>
      if keyword_type = "KTL_STRING" then
        match store st.values_strings i st.valtemp_string with
        | .error p => .error p
        | .ok values_strings =>
          .ok (.next { st with times := times, values_strings := values_strings })
      else
        match unitConvert qm.UnitConversion st.valtemp_float with
        | none =>
          .ok (.ret { Frames := [empty_frame],
                      Error := some (.unknownUnitConversion qm.UnitConversion) })
        | some val =>
          match store st.values_floats i val with
          | .error p => .error p
          | .ok values_floats =>
            .ok (.next { st with times := times, values_floats := values_floats })

/-- The loop `for i = 0; i < count; i++`; the first argument counts the iterations left,
`count - i`. -/
def fetchLoop (keyword_type : String) (qm : queryModel) (empty_frame : Frame) :
    Nat → Nat → FetchState → Except Panic (Flow FetchState)
  | 0, _, st => .ok (.next st)
  | fuel + 1, i, st =>
    match fetchBody keyword_type qm empty_frame i st with
    | .error p => .error p
    | .ok (.ret r) => .ok (.ret r)
    | .ok (.next st) => fetchLoop keyword_type qm empty_frame fuel (i + 1) st

/-! ## The transforms -/

/-- The value the derivative loop stores at `i - 1` (source lines 381-393). -/
def derivativeAt (transform : ℤ) (times : List Time) (values_floats : List F64) (i : Nat) :
    Except Panic F64 :=
  match index times i, index times (i - 1), index values_floats i,
      index values_floats (i - 1) with
  | .ok ti, .ok tp, .ok vi, .ok vp =>
    let dt := (ti.Sub tp).Seconds
    let dvdt := F64.div (F64.sub vi vp) dt
    if transform = TRANSFORM_FIRST_DERIVATVE_1HZ then .ok (F64.Round dvdt)
    else if transform = TRANSFORM_FIRST_DERIVATVE_10HZ then
      .ok (F64.div (F64.Round (F64.mul dvdt (F64.ofInt 10))) (F64.ofInt 10))
    else if transform = TRANSFORM_FIRST_DERIVATVE_100HZ then
      .ok (F64.div (F64.Round (F64.mul dvdt (F64.ofInt 100))) (F64.ofInt 100))
    else .ok dvdt
  | .error p, _, _, _ => .error p
  | _, .error p, _, _ => .error p
  | _, _, .error p, _ => .error p
  | _, _, _, .error p => .error p

/-- The value the delta loop stores at `i - 1` (source line 413). -/
def deltaAt (values_floats : List F64) (i : Nat) : Except Panic F64 :=
  match index values_floats i, index values_floats (i - 1) with
  | .ok vi, .ok vp => .ok (F64.sub vi vp)
  | .error p, _ => .error p
  | _, .error p => .error p

/-- The loop `for i = 1; i < count; i++ { dtimes[i-1] = times[i]; dvalues[i-1] = ... }` of
both transform cases; `dv i` is the value of iteration `i`, the first argument counts the
iterations left. -/
def diffLoop (times : List Time) (dv : Nat → Except Panic F64) :
    Nat → Nat → List Time → List F64 → Except Panic (List Time × List F64)
  | 0, _, dtimes, dvalues => .ok (dtimes, dvalues)
  | fuel + 1, i, dtimes, dvalues =>
    match index times i with
    | .error p => .error p
    | .ok ti =>
      match store dtimes (i - 1) ti with
      | .error p => .error p
      | .ok dtimes =>
        match dv i with
        | .error p => .error p
        | .ok v =>
          match store dvalues (i - 1) v with
          | .error p => .error p
          | .ok dvalues => diffLoop times dv fuel (i + 1) dtimes dvalues

/-- The two allocations `make([]time.Time, count-1)`, `make([]float64, count-1)` and the
loop of a transform case. -/
def diffTransform (count : ℤ) (times : List Time) (dv : Nat → Except Panic F64) :
    Except Panic (List Time × List F64) :=
  match make (count - 1) (default : Time) with
  | .error p => .error p
  | .ok dtimes =>
    match make (count - 1) F64.zero with
    | .error p => .error p
    | .ok dvalues => diffLoop times dv (count - 1).toNat 1 dtimes dvalues

/-- The `switch qm.Transform` (source lines 365-426): the new `times` and `values_floats`,
or the early return of the `default` branch. -/
def transformStep (qm : queryModel) (empty_frame : Frame) (count : ℤ) (times : List Time)
    (values_floats : List F64) : Except Panic (Flow (List Time × List F64)) :=
  if qm.Transform = TRANSFORM_NONE then .ok (.next (times, values_floats))
  else if qm.Transform = TRANSFORM_FIRST_DERIVATVE
      ∨ qm.Transform = TRANSFORM_FIRST_DERIVATVE_1HZ
      ∨ qm.Transform = TRANSFORM_FIRST_DERIVATVE_10HZ
      ∨ qm.Transform = TRANSFORM_FIRST_DERIVATVE_100HZ then
    match diffTransform count times (derivativeAt qm.Transform times values_floats) with
    | .error p => .error p
    | .ok r => .ok (.next r)
  else if qm.Transform = TRANSFORM_DELTA then
    match diffTransform count times (deltaAt values_floats) with
    | .error p => .error p
    | .ok r => .ok (.next r)
  else
    .ok (.ret { Frames := [empty_frame], Error := some (.unknownTransform qm.Transform) })

/-! ## query and QueryData -/

/-- Source lines 428-454: the `rows.Err()` check and the data frame. -/
def buildResponse (keyword_type : String) (qm : queryModel) (rows : Rows)
    (times : List Time) (values_floats : List F64) (values_strings : List String) :
    DataResponse :=
  let value :=
    if keyword_type = "KTL_STRING" then Field.strings "" values_strings
    else Field.floats "" values_floats
  { Frames := [{ Name := qm.QueryText, RefID := qm.RefId,
                 Fields := [value, Field.times "time" times] }],
    Error := match rows.Err with
      | some e => some (.rowQuery e)
      | none => none }

/-- The loop variables as declared before the fetch loop (source lines 280-289): the three
buffers, zero-valued temporaries and the fresh cursor. -/
def startFetch (rs : RowSet) (times : List Time) (values_floats : List F64)
    (values_strings : List String) : FetchState :=
  { rows := { pending := rs.rows, failure := rs.failure, lasterr := none },
    timetemp := F64.zero, valtemp_float := F64.zero, valtemp_string := "",
    times := times, values_floats := values_floats, values_strings := values_strings }

/-- Source lines 280-454: the buffers, the fetch loop, the transform and the frame, once
the count and the cursor are in hand. -/
def processRows (keyword_type : String) (qm : queryModel) (empty_frame : Frame) (count : ℤ)
    (rs : RowSet) : Except Panic DataResponse :=
  match make count (default : Time), make count F64.zero, make count "" with
  | .ok times, .ok values_floats, .ok values_strings =>
    match fetchLoop keyword_type qm empty_frame count.toNat 0
        (startFetch rs times values_floats values_strings) with
    | .error p => .error p
    | .ok (.ret r) => .ok r
    | .ok (.next st) =>
      match transformStep qm empty_frame count st.times st.values_floats with
      | .error p => .error p
      | .ok (.ret r) => .ok r
      | .ok (.next (times, values_floats)) =>
        .ok (buildResponse keyword_type qm st.rows times values_floats st.values_strings)
  | .error p, _, _ => .error p
  | _, .error p, _ => .error p
  | _, _, .error p => .error p

/-- Source lines 239-278: the count query and the ordered fetch. -/
def countAndFetch (db : DB) (query : DataQuery) (qm : queryModel) (empty_frame : Frame)
    (service keyword keyword_type : String) : Except Panic DataResponse :=
  let from_u := query.TimeRange.From.unixSeconds
  let to_u := query.TimeRange.To.unixSeconds
  let service := QuoteIdentifier service
  match db.QueryRowCount service keyword from_u to_u with
  | .noRows => .ok { Frames := [empty_frame], Error := none }
  | .failed e => .ok { Frames := [empty_frame], Error := some (.store e) }
  | .ok count =>
    match db.Query service keyword from_u to_u with
    | .error e => .ok { Frames := [], Error := some (.store e) }
    | .ok rs => processRows keyword_type qm empty_frame count rs

/-- The method `KeywordDatasource.query`. -/
def query (db : DB) (query : DataQuery) : Except Panic DataResponse :=
  match query.JSON with
  | .error e => .ok { Frames := [], Error := some (.unmarshal e) }
  | .ok qm =>
    if qm.Hide then .ok { Frames := [], Error := none }
    else
      let empty_frame := emptyFrame query.TimeRange
      if qm.QueryText = "" then .ok { Frames := [empty_frame], Error := none }
      else
        let sk := Split qm.QueryText
        match index sk 0, index sk 1 with
        | .ok service, .ok keyword =>
          match db.QueryRowType service keyword with
          | .noRows => .ok { Frames := [empty_frame], Error := none }
          | .failed e => .ok { Frames := [empty_frame], Error := some (.store e) }
          | .ok keyword_type =>
            countAndFetch db query qm empty_frame service keyword keyword_type
        | .error p, _ => .error p
        | _, .error p => .error p

/-- Go `DatasourceSettings`. -/
structure DatasourceSettings where
  Server : String
  Port : String
  Role : String
  Database : String
  MetaTable : String

/-- The map `response.Responses`, newest binding first. -/
abbrev Responses := List (String × DataResponse)

/-- Go `m[k] = v`. -/
def Responses.set (m : Responses) (k : String) (v : DataResponse) : Responses :=
  (k, v) :: m.filter (fun e => e.1 ≠ k)

/-- Go `m[k]`, when present. -/
def Responses.get? (m : Responses) (k : String) : Option DataResponse :=
  (m.find? (fun e => e.1 = k)).map Prod.snd

/-- The loop `for _, q := range req.Queries` of `QueryData`. -/
def queryLoop (db : DB) : List DataQuery → Responses → Except Panic Responses
  | [], responses => .ok responses
  | q :: qs, responses =>
    match query db q with
    | .error p => .error p
    | .ok res => queryLoop db qs (responses.set q.RefID res)

/-- The method `KeywordDatasource.QueryData`: `settings` is what `LoadSettings` yields and
`sqlOpen` stands for `sql.Open`; the inner `Except` is the returned `error`. -/
def QueryData (settings : Except String DatasourceSettings)
    (sqlOpen : DatasourceSettings → Except String DB) (queries : List DataQuery) :
    Except Panic (Except String Responses) :=
  match settings with
  | .error e => .ok (.error ("error reading settings: " ++ e))
  | .ok config =>
    match sqlOpen config with
    | .error e => .ok (.error e)
    | .ok db =>
      match queryLoop db queries [] with
      | .error p => .error p
      | .ok responses => .ok (.ok responses)

/-! ## Reading the rows and the spec's tables -/

/-- Whether `rows.Scan` succeeds on the row for the given keyword type. -/
def Row.scanOk (keyword_type : String) (r : Row) : Bool :=
  if keyword_type = "KTL_STRING" then
    (match r.str with
     | .ok _ => true
     | .error _ => false)
  else
    (match r.flt with
     | .ok _ => true
     | .error _ => false)

/-- The float64 a row scans to (the zero value when the scan fails). -/
def Row.floatValue (r : Row) : F64 :=
  match r.flt with
  | .ok x => x
  | .error _ => F64.zero

/-- The string a row scans to (empty when the scan fails). -/
def Row.stringValue (r : Row) : String :=
  match r.str with
  | .ok s => s
  | .error _ => ""

/-- The conversion table of the specification (§4.3), by option code, in float64
arithmetic; `pi/180`, `180/pi`, `3600*180/pi` and `273.15` are the float64 constants of the
source.  A code outside the table leaves the value as it is. -/
def convertTable (option : ℤ) (x : F64) : F64 :=
  if option = 1 then F64.mul x DEG_TO_RAD
  else if option = 2 then F64.mul x RAD_TO_DEG
  else if option = 3 then F64.mul x RAD_TO_ARCSEC
  else if option = 4 then F64.add x KELVIN_OFFSET
  else if option = 5 then F64.sub x KELVIN_OFFSET
  else x

/-- The rounding `r` of the derivative options, by option code: none for Derivative (1),
`math.Round(x)` for 1Hz (2), `math.Round(x*10) / 10` for 10Hz (3) and
`math.Round(x*100) / 100` for 100Hz (4), each product and quotient in float64. -/
def derivativeRounding (option : ℤ) (x : F64) : F64 :=
  if option = 2 then F64.Round x
  else if option = 3 then F64.div (F64.Round (F64.mul x (F64.ofInt 10))) (F64.ofInt 10)
  else if option = 4 then F64.div (F64.Round (F64.mul x (F64.ofInt 100))) (F64.ofInt 100)
  else x

/-- The difference quotient of §4.4 at index `i`, in float64: `(value[i] - value[i-1]) / dt`
with `dt` the seconds of `time[i] - time[i-1]`. -/
def differenceQuotient (time : List Time) (value : List F64) (i : Nat) : F64 :=
  F64.div (F64.sub (value.getD i F64.zero) (value.getD (i - 1) F64.zero))
    ((time.getD i default).Sub (time.getD (i - 1) default)).Seconds

/-- The nearest integer to a rational, halves away from zero. -/
def nearestInt (q : ℚ) : ℤ := if 0 ≤ q then ⌊q + 1 / 2⌋ else ⌈q - 1 / 2⌉

/-- A float64 that is a number greater than zero, `+Inf` included. -/
def F64.isPositive : F64 → Bool
  | .fin false m _ => decide (m ≠ 0)
  | .inf false => true
  | _ => false

/-- The instants the fetch loop builds from the rows it consumes. -/
def fetchedTimes (rows : List Row) : List Time :=
  rows.map (fun r => decodeTime r.time)

/-- The converted values of the rows of a Scalar keyword, by the table of §4.3. -/
def fetchedValues (option : ℤ) (rows : List Row) : List F64 :=
  rows.map (fun r => convertTable option r.floatValue)

/-- The strings of the rows of a StringValued keyword. -/
def fetchedStrings (rows : List Row) : List String :=
  rows.map Row.stringValue

/-- The query passes every stage before the fetch loop: the payload decodes to `qm`, the
query is not hidden, its text has a service and a keyword segment, the metadata lookup
yields `keyword_type`, the count query yields `count` and the ordered fetch opens the
cursor `rs`. -/
structure Fetches (db : DB) (q : DataQuery) (qm : queryModel) (keyword_type : String)
    (count : ℤ) (rs : RowSet) : Prop where
  decoded : q.JSON = .ok qm
  shown : qm.Hide = false
  stages : ∃ service keyword rest,
    Split qm.QueryText = service :: keyword :: rest ∧
    db.QueryRowType service keyword = .ok keyword_type ∧
    db.QueryRowCount (QuoteIdentifier service) keyword q.TimeRange.From.unixSeconds
      q.TimeRange.To.unixSeconds = .ok count ∧
    db.Query (QuoteIdentifier service) keyword q.TimeRange.From.unixSeconds
      q.TimeRange.To.unixSeconds = .ok rs

/-! ## Sample inputs -/

/-- A ten-second range that starts at the epoch. -/
def sampleRange : TimeRange := ⟨⟨0⟩, ⟨10000000000⟩⟩

/-- A visible payload with the given text and option codes. -/
def sampleModel (text : String) (unitConversion transform : ℤ) : queryModel :=
  { Format := "time_series", QueryText := text, UnitConversion := unitConversion,
    Transform := transform, IntervalMs := 1000, MaxDataPoints := 100, OrgId := 1,
    RefId := "A", Hide := false }

/-- The query `A` carrying `sampleModel` over `sampleRange`. -/
def sampleQuery (text : String) (unitConversion transform : ℤ) : DataQuery :=
  ⟨"A", .ok (sampleModel text unitConversion transform), sampleRange⟩

/-- The float64 nearest to `num / den`, the value `strconv.ParseFloat` yields for the
decimal. -/
def F64.dec (num den : ℕ) : F64 := F64.nearest false num den

/-- A row of a Scalar keyword: the timestamp `t` and the value `x`. -/
def scalarRow (t x : F64) : Row := ⟨t, .ok "", .ok x⟩

/-- A row whose value is the text `s`, which is not a number. -/
def stringRow (t : F64) (s : String) : Row := ⟨t, .ok s, .error "invalid syntax"⟩

/-- A store whose only keyword is `svc.KEY`, of the given metadata type; the count query
on it answers `count` and the ordered fetch delivers `rows`. -/
def sampleStore (type : String) (count : ℤ) (rows : List Row) : DB :=
  { QueryRowType := fun service keyword =>
      if service = "svc" ∧ keyword = "KEY" then .ok type else .noRows
    QueryRowCount := fun table keyword _ _ =>
      if table = QuoteIdentifier "svc" ∧ keyword = "KEY" then .ok count
      else .failed "relation does not exist"
    Query := fun table keyword _ _ =>
      if table = QuoteIdentifier "svc" ∧ keyword = "KEY" then .ok ⟨rows, none⟩
      else .error "relation does not exist" }

/-- The rows `(1 s, 1.0), (2 s, 2.0), (3 s, 4.0)` of the end-to-end scenario. -/
def scenarioRows : List Row :=
  [scalarRow (F64.ofInt 1) (F64.ofInt 1), scalarRow (F64.ofInt 2) (F64.ofInt 2),
   scalarRow (F64.ofInt 3) (F64.ofInt 4)]

/-- Three rows one second apart that all carry the value 5.0. -/
def constantRows : List Row :=
  [scalarRow (F64.ofInt 1) (F64.ofInt 5), scalarRow (F64.ofInt 2) (F64.ofInt 5),
   scalarRow (F64.ofInt 3) (F64.ofInt 5)]

/-- Two rows with the value 5.0 and one and the same timestamp. -/
def tiedRows : List Row :=
  [scalarRow (F64.ofInt 1) (F64.ofInt 5), scalarRow (F64.ofInt 1) (F64.ofInt 5)]

/-- Two rows with the value 5.0 whose timestamps, the float64 nearest to 0.3 s and the next
float64 above it, are strictly ascending. -/
def closeRows : List Row :=
  [scalarRow (F64.fin false 5404319552844595 (-54)) (F64.ofInt 5),
   scalarRow (F64.fin false 5404319552844596 (-54)) (F64.ofInt 5)]

/-- Two rows one second apart whose stored text is `Infinity`. -/
def infiniteRows : List Row :=
  [⟨F64.ofInt 1, .ok "Infinity", .ok (F64.inf false)⟩,
   ⟨F64.ofInt 2, .ok "Infinity", .ok (F64.inf false)⟩]

/-- Two rows one second apart that carry the value `2^1023`. -/
def hugeRows : List Row :=
  [scalarRow (F64.ofInt 1) (F64.fin false (2 ^ 52) 971),
   scalarRow (F64.ofInt 2) (F64.fin false (2 ^ 52) 971)]

/-- The rows `(1 s, 0), (2 s, 0.15)`: the difference quotient is the float64 nearest to
0.15, which lies below 0.15. -/
def tenthRows : List Row :=
  [scalarRow (F64.ofInt 1) (F64.ofInt 0), scalarRow (F64.ofInt 2) (F64.dec 15 100)]

/-! ## Evaluation depth

The closed evaluations of `query` unfold the float64 operations on 53-bit significands and
need a deeper recursion than the default. -/

set_option maxRecDepth 4000

/-! ## Slices and allocation -/

/-- An index below the length reads the element. -/
theorem index_of_lt {α : Type} (xs : List α) (i : Nat) (h : i < xs.length) :
    index xs i = .ok (xs.get ⟨i, h⟩) := by
  simp [index, List.getElem?_eq_getElem h]

/-- An index below the length reads the element, written with a default. -/
theorem index_getD {α : Type} (xs : List α) (i : Nat) (d : α) (h : i < xs.length) :
    index xs i = .ok (xs.getD i d) := by
  simp [index, List.getElem?_eq_getElem h, List.getD_eq_getElem _ d h]

/-- A store below the length succeeds. -/
theorem store_of_lt {α : Type} (xs : List α) (i : Nat) (v : α) (h : i < xs.length) :
    store xs i v = .ok (xs.set i v) := by
  simp [store, h]

/-- An allocation of non-negative length yields that many zero values. -/
theorem make_natCast {α : Type} (n : Nat) (z : α) :
    make (n : ℤ) z = .ok (List.replicate n z) := by
  simp [make]

/-- Writing slot `i` and then filling the slots after it is filling from slot `i`. -/
theorem fill_step {α : Type} (xs : List α) (i k : Nat) (a : α) (l : List α)
    (h : i < xs.length) :
    (xs.set i a).take (i + 1) ++ l ++ (xs.set i a).drop (i + 1 + k)
      = xs.take i ++ (a :: l) ++ xs.drop (i + (k + 1)) := by
  induction xs generalizing i with
  | nil => simp at h
  | cons x xs ih =>
    cases i with
    | zero => simp [Nat.add_comm]
    | succ i =>
      have h' : i < xs.length := by simpa using h
      have := ih i h'
      simp only [List.set_cons_succ, List.take_succ_cons, List.cons_append] at this ⊢
      have e1 : i + 1 + 1 + k = (i + 1 + k) + 1 := by omega
      have e2 : i + 1 + (k + 1) = (i + (k + 1)) + 1 := by omega
      rw [e1, e2, List.drop_succ_cons, List.drop_succ_cons, this]

/-- Reading `sk[0]`. -/
theorem index_zero_cons {α : Type} (a : α) (l : List α) : index (a :: l) 0 = .ok a := by
  simp [index]

/-- Reading `sk[1]` when there are two segments. -/
theorem index_one_cons {α : Type} (a b : α) (l : List α) : index (a :: b :: l) 1 = .ok b := by
  simp [index]

/-- Slot `i - 1` of a list built over the indices `1, ..., n - 1`. -/
theorem range_map_getElem? {α : Type} (f : Nat → α) (n i : Nat) (h1 : 1 ≤ i) (hi : i < n) :
    ((List.range' 1 (n - 1)).map f)[i - 1]? = some (f i) := by
  have : i - 1 < n - 1 := by omega
  simp [List.getElem?_map, List.getElem?_range', this]
  congr 1; omega

/-! ## Arithmetic of the model -/

/-- A later instant minus an earlier one is a positive duration, saturated or not. -/
theorem sub_ns_pos (a b : Time) (h : b.unixNano < a.unixNano) : 0 < (a.Sub b).ns := by
  unfold Time.Sub
  simp only
  split
  · simp [maxDuration]
  · split
    · rename_i h1 h2
      simp only [minDuration] at h2
      omega
    · simp only
      omega

/-- A finite float64 minus itself is `+0`. -/
theorem sub_self_fin (s : Bool) (m : ℕ) (e : ℤ) :
    F64.sub (F64.fin s m e) (F64.fin s m e) = F64.zero := by
  have h : F64.signed s (m * F64.pow2 0) + F64.signed (!s) (m * F64.pow2 0) = 0 := by
    cases s <;> simp [F64.signed]
  simp [F64.sub, F64.neg, F64.add, h, F64.zero]

/-- The quotient `+0 / x` is `+0` for every float64 `x` greater than zero. -/
theorem zero_div_positive (x : F64) (h : x.isPositive = true) :
    F64.div F64.zero x = F64.zero := by
  cases x with
  | nan => simp [F64.isPositive] at h
  | inf s => cases s <;> simp [F64.isPositive] at h; simp [F64.div, F64.zero]
  | fin s m e =>
    cases s with
    | true => simp [F64.isPositive] at h
    | false =>
      have hm : m ≠ 0 := by simpa [F64.isPositive] using h
      simp [F64.div, F64.zero, hm, F64.nearest]

/-- Every rounding of the derivative options leaves `+0` as it is. -/
theorem derivativeRounding_zero (option : ℤ) :
    derivativeRounding option F64.zero = F64.zero := by
  have h1 : F64.Round F64.zero = F64.zero := by decide
  have h2 : F64.div (F64.Round (F64.mul F64.zero (F64.ofInt 10))) (F64.ofInt 10)
      = F64.zero := by decide
  have h3 : F64.div (F64.Round (F64.mul F64.zero (F64.ofInt 100))) (F64.ofInt 100)
      = F64.zero := by decide
  unfold derivativeRounding
  split_ifs <;> simp [h1, h2, h3]

/-- The difference quotient of two equal finite values over a positive time step is `+0`. -/
theorem differenceQuotient_const (time : List Time) (value : List F64) (i : Nat)
    (s : Bool) (m : ℕ) (e : ℤ)
    (h1 : value.getD i F64.zero = F64.fin s m e)
    (h2 : value.getD (i - 1) F64.zero = F64.fin s m e)
    (ht : (((time.getD i default).Sub (time.getD (i - 1) default)).Seconds).isPositive
      = true) :
    differenceQuotient time value i = F64.zero := by
  unfold differenceQuotient
  rw [h1, h2, sub_self_fin, zero_div_positive _ ht]

/-- The exact value of `ofSmallNat`. -/
theorem toRat_ofSmallNat (s : Bool) (n : ℕ) :
    (F64.ofSmallNat s n).toRat = (if s then -1 else 1) * (n : ℚ) := by
  unfold F64.ofSmallNat
  split
  · rename_i h; simp [F64.toRat, h]
  · simp only [F64.toRat]
    push_cast
    rw [zpow_neg, zpow_natCast]
    field_simp

/-- An integer is its own nearest integer. -/
theorem nearestInt_intCast (z : ℤ) : nearestInt (z : ℚ) = z := by
  unfold nearestInt
  split
  · rw [Int.floor_eq_iff]; constructor <;> linarith
  · rw [Int.ceil_eq_iff]; constructor <;> linarith

/-- The nearest integer to `a / b`, for naturals `a` and `b > 0`. -/
theorem nearestInt_div (a b : ℕ) (hb : 0 < b) :
    nearestInt ((a : ℚ) / (b : ℚ)) = (((2 * a + b) / (2 * b) : ℕ) : ℤ) := by
  have hb' : (0 : ℚ) < (b : ℚ) := by exact_mod_cast hb
  have hq : (0 : ℚ) ≤ (a : ℚ) / (b : ℚ) := by positivity
  unfold nearestInt
  rw [if_pos hq]
  have e : (a : ℚ) / (b : ℚ) + 1 / 2 = (((2 * a + b : ℕ) : ℤ) : ℚ) / (((2 * b : ℕ)) : ℚ) := by
    push_cast
    field_simp
    ring
  rw [e, Rat.floor_intCast_div_natCast]
  norm_cast

/-- The nearest integer to `-(a / b)`, for naturals `a` and `b > 0`. -/
theorem nearestInt_neg_div (a b : ℕ) (hb : 0 < b) :
    nearestInt (-((a : ℚ) / (b : ℚ))) = -(((2 * a + b) / (2 * b) : ℕ) : ℤ) := by
  have hb' : (0 : ℚ) < (b : ℚ) := by exact_mod_cast hb
  by_cases ha : a = 0
  · subst ha
    have h0 : (0 + b) / (2 * b) = 0 := by
      apply Nat.div_eq_of_lt; omega
    simp only [Nat.cast_zero, zero_div, neg_zero, Nat.mul_zero, h0]
    exact nearestInt_intCast 0
  · have hq : ¬ (0 : ℚ) ≤ -((a : ℚ) / (b : ℚ)) := by
      have : (0 : ℚ) < (a : ℚ) / (b : ℚ) := by
        have : (0 : ℚ) < (a : ℚ) := by exact_mod_cast Nat.pos_of_ne_zero ha
        positivity
      linarith
    unfold nearestInt
    rw [if_neg hq]
    have e : -((a : ℚ) / (b : ℚ)) - 1 / 2
        = -((((2 * a + b : ℕ) : ℤ) : ℚ) / (((2 * b : ℕ)) : ℚ)) := by
      push_cast
      field_simp
      ring
    rw [e, Int.ceil_neg, Rat.floor_intCast_div_natCast]
    norm_cast

/-- Go `math.Round` on a finite float64 yields the nearest integer to its exact value, halves
away from zero. -/
theorem round_nearest_integer (s : Bool) (m : ℕ) (e : ℤ) :
    (F64.Round (F64.fin s m e)).toRat = (nearestInt (F64.fin s m e).toRat : ℚ) := by
  show (if 0 ≤ e then F64.fin s m e
    else F64.ofSmallNat s ((2 * m + F64.pow2 (-e)) / (2 * F64.pow2 (-e)))).toRat = _
  split
  · rename_i he
    obtain ⟨k, rfl⟩ : ∃ k : ℕ, e = (k : ℤ) := ⟨e.toNat, (Int.toNat_of_nonneg he).symm⟩
    have hz : (F64.fin s m (k : ℤ)).toRat = (((if s then -1 else 1) * (m : ℤ) * 2 ^ k : ℤ) : ℚ) := by
      simp only [F64.toRat, zpow_natCast]
      push_cast
      cases s <;> simp
    rw [hz, nearestInt_intCast]
  · rename_i he
    have hneg : 0 < -e := by omega
    obtain ⟨k, hk⟩ : ∃ k : ℕ, -e = (k : ℤ) := ⟨(-e).toNat, (Int.toNat_of_nonneg hneg.le).symm⟩
    have hd : F64.pow2 (-e) = 2 ^ k := by
      simp [F64.pow2, hk, Nat.one_shiftLeft]
    have hpos : 0 < 2 ^ k := Nat.two_pow_pos k
    have he' : e = -(k : ℤ) := by omega
    rw [toRat_ofSmallNat, hd]
    have hx : (F64.fin s m e).toRat
        = (if s then -1 else 1) * ((m : ℚ) / ((2 ^ k : ℕ) : ℚ)) := by
      simp only [F64.toRat, he', zpow_neg, zpow_natCast]
      push_cast
      ring
    rw [hx]
    cases s with
    | false =>
      simp only [Bool.false_eq_true, if_false, one_mul]
      rw [nearestInt_div m (2 ^ k) hpos]
      generalize (2 * m + 2 ^ k) / (2 * 2 ^ k) = n
      push_cast
      ring
    | true =>
      simp only [if_true]
      have : (-1 : ℚ) * ((m : ℚ) / ((2 ^ k : ℕ) : ℚ)) = -((m : ℚ) / ((2 ^ k : ℕ) : ℚ)) := by
        ring
      rw [this, nearestInt_neg_div m (2 ^ k) hpos]
      generalize (2 * m + 2 ^ k) / (2 * 2 ^ k) = n
      push_cast
      ring

/-- The value of `pow2`. -/
theorem pow2_eq (k : ℤ) : F64.pow2 k = 2 ^ k.toNat := by
  simp [F64.pow2, Nat.one_shiftLeft]

/-- A power of two is positive. -/
theorem pow2_pos (k : ℤ) : 0 < F64.pow2 k := by
  rw [pow2_eq]; exact Nat.two_pow_pos _

/-- The quotient `pow2 k / pow2 (-k)` is `2^k`, for either sign of `k`. -/
theorem pow2_cast (k : ℤ) : (F64.pow2 k : ℚ) = (2 : ℚ) ^ k * (F64.pow2 (-k) : ℚ) := by
  rw [pow2_eq, pow2_eq]
  rcases le_total 0 k with h | h
  · obtain ⟨n, rfl⟩ := Int.eq_ofNat_of_zero_le h
    have : (-(n : ℤ)).toNat = 0 := by omega
    simp [this]
  · obtain ⟨n, hn⟩ := Int.eq_ofNat_of_zero_le (show 0 ≤ -k by omega)
    have hk : k = -(n : ℤ) := by omega
    subst hk
    have : (-(n : ℤ)).toNat = 0 := by omega
    simp [this]

/-- The bisection never overshoots: `2^k ≤ n` for the exponent `k` it returns. -/
theorem log2Bisect_le (fuel : ℕ) : ∀ (lo n : ℕ), 2 ^ lo ≤ n →
    2 ^ (F64.log2Bisect fuel lo n) ≤ n := by
  induction fuel with
  | zero => intro lo n h; simpa [F64.log2Bisect] using h
  | succ f ih =>
    intro lo n h
    unfold F64.log2Bisect
    split_ifs with hc
    · exact ih _ _ (by simpa [Nat.one_shiftLeft] using hc)
    · exact ih _ _ h

/-- The bisection stops right below the argument: `n < 2^(k+1)` for the exponent `k` it
returns. -/
theorem log2Bisect_lt (fuel : ℕ) : ∀ (lo n : ℕ), n < 2 ^ (lo + 2 ^ fuel) →
    n < 2 ^ (F64.log2Bisect fuel lo n + 1) := by
  induction fuel with
  | zero => intro lo n h; simpa [F64.log2Bisect] using h
  | succ f ih =>
    intro lo n h
    unfold F64.log2Bisect
    split_ifs with hc
    · refine ih _ _ ?_
      have : lo + 2 ^ f + 2 ^ f = lo + 2 ^ (f + 1) := by ring
      rw [this]; exact h
    · refine ih _ _ ?_
      simpa [Nat.one_shiftLeft] using hc

/-- Lower bound of `log2`. -/
theorem log2_le (n : ℕ) (h : 1 ≤ n) : 2 ^ (F64.log2 n) ≤ n :=
  log2Bisect_le 12 0 n (by simpa using h)

/-- Upper bound of `log2`. -/
theorem lt_log2 (n : ℕ) (h : n < 2 ^ 2 ^ 12) : n < 2 ^ (F64.log2 n + 1) :=
  log2Bisect_lt 12 0 n (by rw [Nat.zero_add]; exact h)

/-- The exponent `floorLog2` does not overshoot: `den * 2^k ≤ num` for the `k` it returns. -/
theorem floorLog2_le (num den : ℕ) (hn : 1 ≤ num) (hd2 : den < 2 ^ 2 ^ 12) :
    (den : ℚ) * (2 : ℚ) ^ (F64.floorLog2 num den) ≤ (num : ℚ) := by
  unfold F64.floorLog2
  simp only
  split_ifs with h
  · have h2 : ((den * F64.pow2 ((F64.log2 num : ℤ) - (F64.log2 den : ℤ)) : ℕ) : ℚ)
        ≤ ((num * F64.pow2 (-((F64.log2 num : ℤ) - (F64.log2 den : ℤ))) : ℕ) : ℚ) := by
      exact_mod_cast h
    push_cast at h2
    rw [pow2_cast ((F64.log2 num : ℤ) - (F64.log2 den : ℤ)), ← mul_assoc] at h2
    have hp : (0 : ℚ) < (F64.pow2 (-((F64.log2 num : ℤ) - (F64.log2 den : ℤ))) : ℚ) := by
      exact_mod_cast pow2_pos _
    exact le_of_mul_le_mul_right h2 hp
  · have h1 : (den : ℚ) ≤ (2 : ℚ) ^ ((F64.log2 den : ℤ) + 1) := by
      have := lt_log2 den hd2
      have h3 : (den : ℚ) < ((2 ^ (F64.log2 den + 1) : ℕ) : ℚ) := by exact_mod_cast this
      push_cast at h3
      rw [show ((F64.log2 den : ℤ) + 1) = ((F64.log2 den + 1 : ℕ) : ℤ) by push_cast; ring,
        zpow_natCast]
      exact h3.le
    have h2 : (2 : ℚ) ^ (F64.log2 num : ℤ) ≤ (num : ℚ) := by
      have := log2_le num hn
      rw [zpow_natCast]
      exact_mod_cast this
    have hpos : (0 : ℚ) < (2 : ℚ) ^ ((F64.log2 num : ℤ) - (F64.log2 den : ℤ) - 1) := by
      positivity
    calc (den : ℚ) * (2 : ℚ) ^ ((F64.log2 num : ℤ) - (F64.log2 den : ℤ) - 1)
        ≤ (2 : ℚ) ^ ((F64.log2 den : ℤ) + 1)
            * (2 : ℚ) ^ ((F64.log2 num : ℤ) - (F64.log2 den : ℤ) - 1) :=
          mul_le_mul_of_nonneg_right h1 hpos.le
      _ = (2 : ℚ) ^ (F64.log2 num : ℤ) := by
          rw [← zpow_add₀ (by norm_num : (2 : ℚ) ≠ 0)]
          congr 1
          ring
      _ ≤ (num : ℚ) := h2

/-- From `den * 2^k ≤ num` to the integer comparison the rounding works with. -/
theorem pow2_mul_le (num den : ℕ) (k : ℤ) (hq : (den : ℚ) * (2 : ℚ) ^ k ≤ (num : ℚ)) :
    den * F64.pow2 k ≤ num * F64.pow2 (-k) := by
  have h2 : ((den * F64.pow2 k : ℕ) : ℚ) ≤ ((num * F64.pow2 (-k) : ℕ) : ℚ) := by
    push_cast
    rw [pow2_cast k, ← mul_assoc]
    exact mul_le_mul_of_nonneg_right hq (Nat.cast_nonneg _)
  exact_mod_cast h2

/-- The float64 nearest to a quotient `num / den` that is at least the least subnormal is
`+Inf` or a finite value above zero; its exponent is at least `floorLog2 num den - 52`. -/
theorem nearest_pos (num den : ℕ) (hn : 1 ≤ num) (hd : 1 ≤ den) (hd2 : den < 2 ^ 2 ^ 12)
    (hv : (den : ℚ) * (2 : ℚ) ^ (-1074 : ℤ) ≤ (num : ℚ)) :
    F64.nearest false num den = F64.inf false ∨
      ∃ m e, F64.nearest false num den = F64.fin false m e ∧ m ≠ 0 ∧
        max (F64.floorLog2 num den - 52) (-1074) ≤ e := by
  have hq : (den : ℚ) * (2 : ℚ) ^ (max (F64.floorLog2 num den - 52) (-1074))
      ≤ (num : ℚ) := by
    rcases max_cases (F64.floorLog2 num den - 52) (-1074) with ⟨h1, _⟩ | ⟨h1, _⟩
    · rw [h1]
      have hmono : (2 : ℚ) ^ (F64.floorLog2 num den - 52)
          ≤ (2 : ℚ) ^ (F64.floorLog2 num den) :=
        zpow_le_zpow_right₀ (by norm_num) (by omega)
      calc (den : ℚ) * (2 : ℚ) ^ (F64.floorLog2 num den - 52)
          ≤ (den : ℚ) * (2 : ℚ) ^ (F64.floorLog2 num den) :=
            mul_le_mul_of_nonneg_left hmono (Nat.cast_nonneg _)
        _ ≤ (num : ℚ) := floorLog2_le num den hn hd2
    · rw [h1]; exact hv
  have hb := pow2_mul_le num den _ hq
  unfold F64.nearest
  rw [if_neg (by omega)]
  simp only
  generalize max (F64.floorLog2 num den - 52) (-1074) = E at hb ⊢
  have hq : 1 ≤ num * F64.pow2 (-E) / (den * F64.pow2 E) :=
    (Nat.one_le_div_iff (Nat.mul_pos hd (pow2_pos E))).2 hb
  split_ifs
  all_goals first
    | exact Or.inl rfl
    | exact Or.inr ⟨_, _, rfl, by omega, by omega⟩

/-- For a positive integer `n`, `floorLog2 n 1` is not negative. -/
theorem floorLog2_one (n : ℕ) (h : 1 ≤ n) : 0 ≤ F64.floorLog2 n 1 := by
  have h1 : F64.log2 1 = 0 := by decide
  have hc : 1 * F64.pow2 ((F64.log2 n : ℤ) - ((0 : ℕ) : ℤ))
      ≤ n * F64.pow2 (-((F64.log2 n : ℤ) - ((0 : ℕ) : ℤ))) := by
    apply pow2_mul_le n 1
    have := log2_le n h
    simp only [Nat.cast_one, one_mul, Nat.cast_zero, sub_zero, zpow_natCast]
    exact_mod_cast this
  unfold F64.floorLog2
  simp only [h1]
  rw [if_pos hc]
  simp

/-- The float64 of a positive integer is `+Inf` or a finite value above zero with an exponent
of at least `-52`. -/
theorem ofInt_pos (i : ℤ) (h : 1 ≤ i) :
    F64.ofInt i = F64.inf false ∨
      ∃ m e, F64.ofInt i = F64.fin false m e ∧ m ≠ 0 ∧ -52 ≤ e := by
  have hneg : decide (i < 0) = false := by
    simp only [decide_eq_false_iff_not]; omega
  have hv : (((1 : ℕ) : ℚ)) * (2 : ℚ) ^ (-1074 : ℤ) ≤ (i.natAbs : ℚ) := by
    have h1 : (2 : ℚ) ^ (-1074 : ℤ) ≤ 1 := zpow_le_one_of_nonpos₀ (by norm_num) (by norm_num)
    have h2 : (1 : ℚ) ≤ (i.natAbs : ℚ) := by
      have : 1 ≤ i.natAbs := by omega
      exact_mod_cast this
    rw [Nat.cast_one, one_mul]
    exact h1.trans h2
  unfold F64.ofInt
  rw [hneg]
  rcases nearest_pos i.natAbs 1 (by omega) le_rfl (Nat.one_lt_two_pow (by norm_num)) hv
    with h1 | ⟨m, e, h1, h2, h3⟩
  · exact Or.inl h1
  · refine Or.inr ⟨m, e, h1, h2, ?_⟩
    have h4 := floorLog2_one i.natAbs (by omega)
    have h5 : F64.floorLog2 i.natAbs 1 - 52 ≤ max (F64.floorLog2 i.natAbs 1 - 52) (-1074) :=
      le_max_left _ _
    omega

/-- The float64 nearest to `num / den` for positive integers with `den ≤ 2^1074`: the
quotient is at least the least subnormal, so the result is `+Inf` or finite and above zero. -/
theorem nearest_pos_of_le (num den k : ℕ) (hn : 1 ≤ num) (hd : 1 ≤ den) (hk : k ≤ 1074)
    (hden : den ≤ 2 ^ k) :
    F64.nearest false num den = F64.inf false ∨
      ∃ m e, F64.nearest false num den = F64.fin false m e ∧ m ≠ 0 ∧ -1074 ≤ e := by
  have hd2 : den < 2 ^ 2 ^ 12 :=
    lt_of_le_of_lt hden (Nat.pow_lt_pow_right (by norm_num) (by norm_num; omega))
  have hv : (den : ℚ) * (2 : ℚ) ^ (-1074 : ℤ) ≤ (num : ℚ) := by
    have h1 : (den : ℚ) ≤ (2 : ℚ) ^ (k : ℤ) := by
      rw [zpow_natCast]
      exact_mod_cast hden
    have h2 : (2 : ℚ) ^ (k : ℤ) * (2 : ℚ) ^ (-1074 : ℤ) ≤ 1 := by
      rw [← zpow_add₀ (by norm_num : (2 : ℚ) ≠ 0)]
      exact zpow_le_one_of_nonpos₀ (by norm_num) (by omega)
    have h3 : (1 : ℚ) ≤ (num : ℚ) := by exact_mod_cast hn
    have h4 : (0 : ℚ) ≤ (2 : ℚ) ^ (-1074 : ℤ) := (zpow_pos (by norm_num) _).le
    calc (den : ℚ) * (2 : ℚ) ^ (-1074 : ℤ)
        ≤ (2 : ℚ) ^ (k : ℤ) * (2 : ℚ) ^ (-1074 : ℤ) := mul_le_mul_of_nonneg_right h1 h4
      _ ≤ 1 := h2
      _ ≤ (num : ℚ) := h3
  rcases nearest_pos num den hn hd hd2 hv with h | ⟨m, e, h1, h2, h3⟩
  · exact Or.inl h
  · exact Or.inr ⟨m, e, h1, h2, le_trans (le_max_right _ _) h3⟩

/-- The quotient of a float64 above zero, with an exponent of at least `-52`, by `1e9` is
`+Inf` or a finite value above zero. -/
theorem div_billion_pos (m1 : ℕ) (e1 : ℤ) (hm : m1 ≠ 0) (he : -52 ≤ e1) :
    F64.div (F64.fin false m1 e1) (F64.ofInt 1000000000) = F64.inf false ∨
      ∃ m e, F64.div (F64.fin false m1 e1) (F64.ofInt 1000000000) = F64.fin false m e ∧
        m ≠ 0 ∧ -1074 ≤ e := by
  have hB : F64.ofInt 1000000000 = F64.fin false 8388608000000000 (-23) := by decide
  rw [hB]
  simp only [F64.div]
  rw [if_neg (by norm_num)]
  have hx : xor false false = false := rfl
  rw [hx]
  apply nearest_pos_of_le _ _ 82
  · exact Nat.mul_pos (Nat.pos_of_ne_zero hm) (pow2_pos _)
  · exact Nat.mul_pos (by norm_num) (pow2_pos _)
  · norm_num
  · have h1 : F64.pow2 (-23 - e1) ≤ 2 ^ 29 := by
      rw [pow2_eq]
      exact Nat.pow_le_pow_right (by norm_num) (by omega)
    calc 8388608000000000 * F64.pow2 (-23 - e1)
        ≤ 2 ^ 53 * 2 ^ 29 := Nat.mul_le_mul (by norm_num) h1
      _ = 2 ^ 82 := by norm_num

/-- The sum of two finite float64 that are not negative, one of them above zero, is above
zero. -/
theorem add_fin_isPositive (m1 m2 : ℕ) (e1 e2 : ℤ) (h1 : -1074 ≤ e1) (h2 : -1074 ≤ e2)
    (hm : m1 ≠ 0 ∨ m2 ≠ 0) :
    (F64.add (F64.fin false m1 e1) (F64.fin false m2 e2)).isPositive = true := by
  have hS : 1 ≤ m1 * F64.pow2 (e1 - min e1 e2) + m2 * F64.pow2 (e2 - min e1 e2) := by
    rcases hm with h | h
    · have := Nat.mul_pos (Nat.pos_of_ne_zero h) (pow2_pos (e1 - min e1 e2))
      omega
    · have := Nat.mul_pos (Nat.pos_of_ne_zero h) (pow2_pos (e2 - min e1 e2))
      omega
  simp only [F64.add, F64.signed, Bool.false_eq_true, if_false]
  generalize hSd : m1 * F64.pow2 (e1 - min e1 e2) + m2 * F64.pow2 (e2 - min e1 e2) = S at hS
  have hsum : ((m1 * F64.pow2 (e1 - min e1 e2) : ℕ) : ℤ)
      + ((m2 * F64.pow2 (e2 - min e1 e2) : ℕ) : ℤ) = (S : ℤ) := by
    rw [← hSd]; push_cast; ring
  rw [hsum]
  have hne : ¬ ((S : ℤ) = 0) := by omega
  have hlt : decide ((S : ℤ) < 0) = false := by
    simp only [decide_eq_false_iff_not]; omega
  rw [if_neg hne, hlt, Int.natAbs_ofNat]
  have hden : F64.pow2 (-min e1 e2) ≤ 2 ^ (-min e1 e2).toNat := by
    rw [pow2_eq]
  rcases nearest_pos_of_le (S * F64.pow2 (min e1 e2)) (F64.pow2 (-min e1 e2))
      (-min e1 e2).toNat (Nat.mul_pos hS (pow2_pos _)) (pow2_pos _) (by omega) hden
    with h | ⟨m, e, h, hm0, _⟩
  · rw [h]; rfl
  · rw [h]; simp [F64.isPositive, hm0]

/-- The sum of two float64 that are `+Inf` or finite and not negative, one of them above
zero, is above zero. -/
theorem add_isPositive (x y : F64)
    (hx : x = F64.inf false ∨ ∃ m e, x = F64.fin false m e ∧ -1074 ≤ e)
    (hy : y = F64.inf false ∨ ∃ m e, y = F64.fin false m e ∧ -1074 ≤ e)
    (hxy : x.isPositive = true ∨ y.isPositive = true) :
    (F64.add x y).isPositive = true := by
  rcases hx with rfl | ⟨m1, e1, rfl, h1⟩ <;> rcases hy with rfl | ⟨m2, e2, rfl, h2⟩
  · rfl
  · rfl
  · rfl
  · apply add_fin_isPositive m1 m2 e1 e2 h1 h2
    rcases hxy with h | h
    · left; simpa [F64.isPositive] using h
    · right; simpa [F64.isPositive] using h

/-- The seconds of a positive duration are a float64 above zero. -/
theorem seconds_isPositive (d : Duration) (h : 0 < d.ns) : d.Seconds.isPositive = true := by
  have hsec : d.ns.tdiv 1000000000 = d.ns / 1000000000 :=
    Int.tdiv_eq_ediv h.le (by norm_num)
  have hnsec : d.ns.tmod 1000000000 = d.ns % 1000000000 :=
    Int.tmod_eq_emod h.le (by norm_num)
  have h0 : F64.ofInt 0 = F64.fin false 0 (-1074) := by decide
  have hq0 : F64.div (F64.fin false 0 (-1074)) (F64.ofInt 1000000000)
      = F64.fin false 0 (-1074) := by decide
  unfold Duration.Seconds
  simp only [hsec, hnsec]
  have hx : F64.ofInt (d.ns / 1000000000) = F64.inf false ∨
      ∃ m e, F64.ofInt (d.ns / 1000000000) = F64.fin false m e ∧ -1074 ≤ e := by
    by_cases hs : d.ns / 1000000000 = 0
    · rw [hs, h0]; exact Or.inr ⟨0, -1074, rfl, le_rfl⟩
    · rcases ofInt_pos (d.ns / 1000000000) (by omega) with h1 | ⟨m, e, h1, _, h3⟩
      · exact Or.inl h1
      · exact Or.inr ⟨m, e, h1, by omega⟩
  have hy : F64.div (F64.ofInt (d.ns % 1000000000)) (F64.ofInt 1000000000) = F64.inf false ∨
      ∃ m e, F64.div (F64.ofInt (d.ns % 1000000000)) (F64.ofInt 1000000000)
        = F64.fin false m e ∧ -1074 ≤ e := by
    by_cases hs : d.ns % 1000000000 = 0
    · rw [hs, h0, hq0]; exact Or.inr ⟨0, -1074, rfl, le_rfl⟩
    · rcases ofInt_pos (d.ns % 1000000000) (by omega) with h1 | ⟨m, e, h1, h2, h3⟩
      · rw [h1]; exact Or.inl (by decide)
      · rw [h1]
        rcases div_billion_pos m e h2 h3 with h4 | ⟨m', e', h4, _, h6⟩
        · exact Or.inl h4
        · exact Or.inr ⟨m', e', h4, h6⟩
  apply add_isPositive _ _ hx hy
  by_cases hs : d.ns / 1000000000 = 0
  · right
    have hns : d.ns % 1000000000 ≠ 0 := by omega
    rcases ofInt_pos (d.ns % 1000000000) (by omega) with h1 | ⟨m, e, h1, h2, h3⟩
    · rw [h1]; decide
    · rw [h1]
      rcases div_billion_pos m e h2 h3 with h4 | ⟨m', e', h4, h5, _⟩
      · rw [h4]; rfl
      · rw [h4]; simp [F64.isPositive, h5]
  · left
    rcases ofInt_pos (d.ns / 1000000000) (by omega) with h1 | ⟨m, e, h1, h2, _⟩
    · rw [h1]; rfl
    · rw [h1]; simp [F64.isPositive, h2]

/-- The time step between two instants, the later one first, is a float64 above zero. -/
theorem seconds_of_later (a b : Time) (h : b.unixNano < a.unixNano) :
    ((a.Sub b).Seconds).isPositive = true :=
  seconds_isPositive _ (sub_ns_pos a b h)

/-! ## Lemmas on the fetch loop -/

/-- On the codes 0..5 the switch of the fetch loop computes the table of the specification. -/
theorem unitConvert_table (code : ℤ) (x : F64) (h0 : 0 ≤ code) (h5 : code ≤ 5) :
    unitConvert code x = some (convertTable code x) := by
  have h : code = 0 ∨ code = 1 ∨ code = 2 ∨ code = 3 ∨ code = 4 ∨ code = 5 := by omega
  rcases h with h | h | h | h | h | h <;> subst h <;>
    simp [unitConvert, convertTable, UNIT_CONVERT_NONE, UNIT_CONVERT_DEG_TO_RAD,
      UNIT_CONVERT_RAD_TO_DEG, UNIT_CONVERT_RAD_TO_ARCSEC, UNIT_CONVERT_K_TO_C,
      UNIT_CONVERT_C_TO_K]

/-- The fetch loop on a cursor that still holds a row for every iteration left: no early
return, the cursor advances by one row per iteration and the buffers receive, slot by slot,
the decoded time and the string or converted value of each row. -/
theorem fetchLoop_enough (kt : String) (qm : queryModel) (ef : Frame)
    (huc : kt = "KTL_STRING" ∨ (0 ≤ qm.UnitConversion ∧ qm.UnitConversion ≤ 5)) :
    ∀ (fuel i : Nat) (st : FetchState),
      fuel ≤ st.rows.pending.length →
      (∀ r ∈ st.rows.pending.take fuel, r.scanOk kt = true) →
      i + fuel ≤ st.times.length → i + fuel ≤ st.values_floats.length →
      i + fuel ≤ st.values_strings.length →
      ∃ st', fetchLoop kt qm ef fuel i st = .ok (.next st') ∧
        st'.rows = { st.rows with pending := st.rows.pending.drop fuel } ∧
        st'.times = st.times.take i
            ++ (st.rows.pending.take fuel).map (fun r => decodeTime r.time)
            ++ st.times.drop (i + fuel) ∧
        (kt = "KTL_STRING" →
          st'.values_strings = st.values_strings.take i
            ++ (st.rows.pending.take fuel).map Row.stringValue
            ++ st.values_strings.drop (i + fuel) ∧
          st'.values_floats = st.values_floats) ∧
        (kt ≠ "KTL_STRING" →
          st'.values_floats = st.values_floats.take i
            ++ (st.rows.pending.take fuel).map
                (fun r => convertTable qm.UnitConversion r.floatValue)
            ++ st.values_floats.drop (i + fuel) ∧
          st'.values_strings = st.values_strings) := by
  intro fuel
  induction fuel with
  | zero =>
    intro i st _ _ _ _ _
    exact ⟨st, by simp [fetchLoop], by simp, by simp, by simp, by simp⟩
  | succ fuel ih =>
    intro i st hlen hscan ht hf hs
    obtain ⟨⟨pending, failure, lasterr⟩, tt, vf, vs, times, vfl, vst⟩ := st
    simp only at hlen hscan ht hf hs ⊢
    cases pending with
    | nil => simp at hlen
    | cons r rest =>
      have hr : r.scanOk kt = true := hscan r (by simp)
      have hrest : ∀ r' ∈ rest.take fuel, r'.scanOk kt = true := fun r' hr' =>
        hscan r' (by simp [List.take_succ_cons, hr'])
      have hlen' : fuel ≤ rest.length := by simpa using hlen
      have hti : i < times.length := by omega
      by_cases hk : kt = "KTL_STRING"
      · cases hstr : r.str with
        | error e => simp [Row.scanOk, hk, hstr] at hr
        | ok s =>
          have hsi : i < vst.length := by omega
          obtain ⟨st', hloop, hrows, htimes, hS, hF⟩ := ih (i + 1)
            { rows := ⟨rest, failure, lasterr⟩, timetemp := r.time, valtemp_float := vf,
              valtemp_string := s, times := times.set i (decodeTime r.time),
              values_floats := vfl, values_strings := vst.set i s }
            hlen' hrest (by simp; omega) (by simp; omega) (by simp; omega)
          refine ⟨st', ?_, ?_, ?_, ?_, ?_⟩
          · simp [fetchLoop, fetchBody, scanNext, Rows.Next, hk, hstr, store_of_lt _ _ _ hti,
              store_of_lt _ _ _ hsi]
            simpa [hk] using hloop
          · simpa using hrows
          · rw [htimes]; simpa using fill_step times i fuel (decodeTime r.time) _ hti
          · intro _
            obtain ⟨h1, h2⟩ := hS hk
            refine ⟨?_, by simpa using h2⟩
            rw [h1]
            simpa [Row.stringValue, hstr] using fill_step vst i fuel s _ hsi
          · intro h; exact absurd hk h
      · have hu : 0 ≤ qm.UnitConversion ∧ qm.UnitConversion ≤ 5 := by
          rcases huc with h | h
          · exact absurd h hk
          · exact h
        cases hflt : r.flt with
        | error e => simp [Row.scanOk, hk, hflt] at hr
        | ok x =>
          have hfi : i < vfl.length := by omega
          obtain ⟨st', hloop, hrows, htimes, hS, hF⟩ := ih (i + 1)
            { rows := ⟨rest, failure, lasterr⟩, timetemp := r.time, valtemp_float := x,
              valtemp_string := vs, times := times.set i (decodeTime r.time),
              values_floats := vfl.set i (convertTable qm.UnitConversion x),
              values_strings := vst }
            hlen' hrest (by simp; omega) (by simp; omega) (by simp; omega)
          refine ⟨st', ?_, ?_, ?_, ?_, ?_⟩
          · simp [fetchLoop, fetchBody, scanNext, Rows.Next, hk, hflt, store_of_lt _ _ _ hti,
              unitConvert_table _ x hu.1 hu.2, store_of_lt _ _ _ hfi]
            simpa [hk] using hloop
          · simpa using hrows
          · rw [htimes]; simpa using fill_step times i fuel (decodeTime r.time) _ hti
          · intro h; exact absurd h hk
          · intro _
            obtain ⟨h1, h2⟩ := hF hk
            refine ⟨?_, by simpa using h2⟩
            rw [h1]
            simpa [Row.floatValue, hflt] using
              fill_step vfl i fuel (convertTable qm.UnitConversion x) _ hfi

/-- The fetch loop returns early only on a scan error or an unknown unit conversion: when
every row it consumes scans and the conversion is recognised (or the keyword is
StringValued) it runs to its end, however many rows the cursor delivers. -/
theorem fetchLoop_next (kt : String) (qm : queryModel) (ef : Frame)
    (huc : kt = "KTL_STRING" ∨ (0 ≤ qm.UnitConversion ∧ qm.UnitConversion ≤ 5)) :
    ∀ (fuel i : Nat) (st : FetchState),
      (∀ r ∈ st.rows.pending.take fuel, r.scanOk kt = true) →
      i + fuel ≤ st.times.length → i + fuel ≤ st.values_floats.length →
      i + fuel ≤ st.values_strings.length →
      ∃ st', fetchLoop kt qm ef fuel i st = .ok (.next st') := by
  intro fuel
  induction fuel with
  | zero => intro i st _ _ _ _; exact ⟨st, by simp [fetchLoop]⟩
  | succ fuel ih =>
    intro i st hscan ht hf hs
    obtain ⟨⟨pending, failure, lasterr⟩, tt, vf, vs, times, vfl, vst⟩ := st
    simp only at hscan ht hf hs ⊢
    have hti : i < times.length := by omega
    have hfi : i < vfl.length := by omega
    have hsi : i < vst.length := by omega
    have hconv : kt ≠ "KTL_STRING" → ∀ x, unitConvert qm.UnitConversion x
        = some (convertTable qm.UnitConversion x) := by
      intro hk x
      rcases huc with h | h
      · exact absurd h hk
      · exact unitConvert_table _ x h.1 h.2
    cases pending with
    | nil =>
      by_cases hk : kt = "KTL_STRING"
      · obtain ⟨st', hloop⟩ := ih (i + 1)
          { rows := ⟨[], failure, failure⟩, timetemp := tt, valtemp_float := vf,
            valtemp_string := vs, times := times.set i (decodeTime tt),
            values_floats := vfl, values_strings := vst.set i vs }
          (by simp) (by simp; omega) (by simp; omega) (by simp; omega)
        refine ⟨st', ?_⟩
        simp [fetchLoop, fetchBody, scanNext, Rows.Next, hk, store_of_lt _ _ _ hti,
          store_of_lt _ _ _ hsi]
        simpa [hk] using hloop
      · obtain ⟨st', hloop⟩ := ih (i + 1)
          { rows := ⟨[], failure, failure⟩, timetemp := tt, valtemp_float := vf,
            valtemp_string := vs, times := times.set i (decodeTime tt),
            values_floats := vfl.set i (convertTable qm.UnitConversion vf),
            values_strings := vst }
          (by simp) (by simp; omega) (by simp; omega) (by simp; omega)
        refine ⟨st', ?_⟩
        simp [fetchLoop, fetchBody, scanNext, Rows.Next, hk, store_of_lt _ _ _ hti,
          hconv hk, store_of_lt _ _ _ hfi]
        simpa [hk] using hloop
    | cons r rest =>
      have hr : r.scanOk kt = true := hscan r (by simp)
      have hrest : ∀ r' ∈ rest.take fuel, r'.scanOk kt = true := fun r' hr' =>
        hscan r' (by simp [List.take_succ_cons, hr'])
      by_cases hk : kt = "KTL_STRING"
      · cases hstr : r.str with
        | error e => simp [Row.scanOk, hk, hstr] at hr
        | ok s =>
          obtain ⟨st', hloop⟩ := ih (i + 1)
            { rows := ⟨rest, failure, lasterr⟩, timetemp := r.time, valtemp_float := vf,
              valtemp_string := s, times := times.set i (decodeTime r.time),
              values_floats := vfl, values_strings := vst.set i s }
            hrest (by simp; omega) (by simp; omega) (by simp; omega)
          refine ⟨st', ?_⟩
          simp [fetchLoop, fetchBody, scanNext, Rows.Next, hk, hstr, store_of_lt _ _ _ hti,
            store_of_lt _ _ _ hsi]
          simpa [hk] using hloop
      · cases hflt : r.flt with
        | error e => simp [Row.scanOk, hk, hflt] at hr
        | ok x =>
          obtain ⟨st', hloop⟩ := ih (i + 1)
            { rows := ⟨rest, failure, lasterr⟩, timetemp := r.time, valtemp_float := x,
              valtemp_string := vs, times := times.set i (decodeTime r.time),
              values_floats := vfl.set i (convertTable qm.UnitConversion x),
              values_strings := vst }
            hrest (by simp; omega) (by simp; omega) (by simp; omega)
          refine ⟨st', ?_⟩
          simp [fetchLoop, fetchBody, scanNext, Rows.Next, hk, hflt, store_of_lt _ _ _ hti,
            hconv hk, store_of_lt _ _ _ hfi]
          simpa [hk] using hloop

/-- One iteration of the fetch loop on a Scalar keyword when the cursor delivers a row that
scans to `x`: the temporaries take the row, slot `i` of both buffers is written. -/
theorem fetchLoop_one_scalar (kt : String) (qm : queryModel) (ef : Frame) (i : Nat)
    (st : FetchState) (r : Row) (rest : List Row) (x : F64) (hk : kt ≠ "KTL_STRING")
    (hu : 0 ≤ qm.UnitConversion ∧ qm.UnitConversion ≤ 5)
    (hp : st.rows.pending = r :: rest) (hx : r.flt = .ok x) (ht : i < st.times.length)
    (hf : i < st.values_floats.length) :
    fetchLoop kt qm ef 1 i st = .ok (.next
      { st with rows := { st.rows with pending := rest }, timetemp := r.time,
                valtemp_float := x, times := st.times.set i (decodeTime r.time),
                values_floats := st.values_floats.set i (convertTable qm.UnitConversion x) }) := by
  obtain ⟨⟨pending, failure, lasterr⟩, tt, vf, vs, times, vfl, vst⟩ := st
  simp only at hp ht hf
  subst hp
  simp [fetchLoop, fetchBody, scanNext, Rows.Next, hk, hx, store_of_lt _ _ _ ht,
    unitConvert_table _ x hu.1 hu.2, store_of_lt _ _ _ hf]

/-- One iteration of the fetch loop on a StringValued keyword when the cursor delivers a
row that scans to `s`. -/
theorem fetchLoop_one_string (qm : queryModel) (ef : Frame) (i : Nat)
    (st : FetchState) (r : Row) (rest : List Row) (s : String)
    (hp : st.rows.pending = r :: rest) (hs : r.str = .ok s) (ht : i < st.times.length)
    (hv : i < st.values_strings.length) :
    fetchLoop "KTL_STRING" qm ef 1 i st = .ok (.next
      { st with rows := { st.rows with pending := rest }, timetemp := r.time,
                valtemp_string := s, times := st.times.set i (decodeTime r.time),
                values_strings := st.values_strings.set i s }) := by
  obtain ⟨⟨pending, failure, lasterr⟩, tt, vf, vs, times, vfl, vst⟩ := st
  simp only at hp ht hv
  subst hp
  simp [fetchLoop, fetchBody, scanNext, Rows.Next, hs, store_of_lt _ _ _ ht,
    store_of_lt _ _ _ hv]

/-- Inside the buffers the derivative loop stores the rounded difference quotient. -/
theorem derivativeAt_eq (T : ℤ) (times : List Time) (values : List F64) (k : Nat)
    (hT : 1 ≤ T ∧ T ≤ 4) (hk : k < times.length) (hv : k < values.length) :
    derivativeAt T times values k
      = .ok (derivativeRounding T (differenceQuotient times values k)) := by
  have h1 : k - 1 < times.length := by omega
  have h2 : k - 1 < values.length := by omega
  have h : T = 1 ∨ T = 2 ∨ T = 3 ∨ T = 4 := by omega
  rcases h with h | h | h | h <;> subst h <;>
    simp [derivativeAt, index_getD times k default hk, index_getD times (k - 1) default h1,
      index_getD values k F64.zero hv, index_getD values (k - 1) F64.zero h2,
      derivativeRounding, differenceQuotient, TRANSFORM_FIRST_DERIVATVE_1HZ,
      TRANSFORM_FIRST_DERIVATVE_10HZ, TRANSFORM_FIRST_DERIVATVE_100HZ]

/-- Inside the buffer the delta loop stores the plain difference. -/
theorem deltaAt_eq (values : List F64) (k : Nat) (hv : k < values.length) :
    deltaAt values k
      = .ok (F64.sub (values.getD k F64.zero) (values.getD (k - 1) F64.zero)) := by
  have h2 : k - 1 < values.length := by omega
  simp [deltaAt, index_getD values k F64.zero hv, index_getD values (k - 1) F64.zero h2]

/-- The transform loop started at index `j + 1` fills the slots `j, j + 1, ...` of both
outputs and does not panic while its reads stay inside `times`. -/
theorem diffLoop_fill (times : List Time) (dv : Nat → Except Panic F64) (g : Nat → F64) :
    ∀ (fuel j : Nat) (dtimes : List Time) (dvalues : List F64),
      j + 1 + fuel ≤ times.length → j + fuel ≤ dtimes.length → j + fuel ≤ dvalues.length →
      (∀ k, k < j + 1 + fuel → dv k = .ok (g k)) →
      diffLoop times dv fuel (j + 1) dtimes dvalues =
        .ok (dtimes.take j ++ (List.range' (j + 1) fuel).map (fun k => times.getD k default)
               ++ dtimes.drop (j + fuel),
             dvalues.take j ++ (List.range' (j + 1) fuel).map g ++ dvalues.drop (j + fuel)) := by
  intro fuel
  induction fuel with
  | zero => intro j dtimes dvalues _ _ _ _; simp [diffLoop]
  | succ fuel ih =>
    intro j dtimes dvalues ht hdt hdv hg
    have h1 : j + 1 < times.length := by omega
    have h2 : j < dtimes.length := by omega
    have h3 : j < dvalues.length := by omega
    have hrec := ih (j + 1) (dtimes.set j (times.getD (j + 1) default))
      (dvalues.set j (g (j + 1))) (by omega) (by simp; omega) (by simp; omega)
      (fun k hk => hg k (by omega))
    simp only [diffLoop, index_getD times (j + 1) default h1, Nat.add_sub_cancel,
      store_of_lt _ _ _ h2, hg (j + 1) (by omega), store_of_lt _ _ _ h3, hrec]
    rw [fill_step dtimes j fuel _ _ h2, fill_step dvalues j fuel _ _ h3]
    simp [List.range'_succ]

/-- A transform case on `n ≥ 1` samples: two outputs of length `n - 1`, slot `k - 1` taken at
index `k`. -/
theorem diffTransform_eq (n : Nat) (times : List Time) (dv : Nat → Except Panic F64)
    (g : Nat → F64) (hn : 1 ≤ n) (ht : times.length = n)
    (hg : ∀ k, k < n → dv k = .ok (g k)) :
    diffTransform (n : ℤ) times dv =
      .ok ((List.range' 1 (n - 1)).map (fun k => times.getD k default),
           (List.range' 1 (n - 1)).map g) := by
  obtain ⟨m, rfl⟩ : ∃ m, n = m + 1 := ⟨n - 1, by omega⟩
  have e : ((m + 1 : ℕ) : ℤ) - 1 = (m : ℤ) := by push_cast; ring
  have := diffLoop_fill times dv g m 0 (List.replicate m default) (List.replicate m F64.zero)
    (by omega) (by simp) (by simp) (fun k hk => hg k (by omega))
  simp only [diffTransform, e, make_natCast, Int.toNat_ofNat, Nat.add_sub_cancel]
  simpa using this

/-- The derivative cases of the transform switch on `n ≥ 1` samples. -/
theorem transformStep_derivative (qm : queryModel) (ef : Frame) (n : Nat) (times : List Time)
    (values : List F64) (hT : 1 ≤ qm.Transform ∧ qm.Transform ≤ 4) (hn : 1 ≤ n)
    (ht : times.length = n) (hv : values.length = n) :
    transformStep qm ef (n : ℤ) times values =
      .ok (.next ((List.range' 1 (n - 1)).map (fun k => times.getD k default),
        (List.range' 1 (n - 1)).map
          (fun k => derivativeRounding qm.Transform (differenceQuotient times values k)))) := by
  have hd := diffTransform_eq n times (derivativeAt qm.Transform times values)
    (fun k => derivativeRounding qm.Transform (differenceQuotient times values k)) hn ht
    (fun k hk => derivativeAt_eq _ _ _ k hT (by omega) (by omega))
  have h : qm.Transform = 1 ∨ qm.Transform = 2 ∨ qm.Transform = 3 ∨ qm.Transform = 4 := by
    omega
  rcases h with h | h | h | h <;>
    simp [transformStep, h, TRANSFORM_NONE, TRANSFORM_FIRST_DERIVATVE,
      TRANSFORM_FIRST_DERIVATVE_1HZ, TRANSFORM_FIRST_DERIVATVE_10HZ,
      TRANSFORM_FIRST_DERIVATVE_100HZ, h ▸ hd]

/-- The Delta case of the transform switch on `n ≥ 1` samples. -/
theorem transformStep_delta (qm : queryModel) (ef : Frame) (n : Nat) (times : List Time)
    (values : List F64) (hT : qm.Transform = 5) (hn : 1 ≤ n)
    (ht : times.length = n) (hv : values.length = n) :
    transformStep qm ef (n : ℤ) times values =
      .ok (.next ((List.range' 1 (n - 1)).map (fun k => times.getD k default),
        (List.range' 1 (n - 1)).map
          (fun k => F64.sub (values.getD k F64.zero) (values.getD (k - 1) F64.zero)))) := by
  have hd := diffTransform_eq n times (deltaAt values)
    (fun k => F64.sub (values.getD k F64.zero) (values.getD (k - 1) F64.zero)) hn ht
    (fun k hk => deltaAt_eq _ k (by omega))
  simp [transformStep, hT, TRANSFORM_NONE, TRANSFORM_FIRST_DERIVATVE,
    TRANSFORM_FIRST_DERIVATVE_1HZ, TRANSFORM_FIRST_DERIVATVE_10HZ,
    TRANSFORM_FIRST_DERIVATVE_100HZ, TRANSFORM_DELTA, hd]

/-- A transform code outside 0..5 takes the `default` branch of the switch. -/
theorem transformStep_unknown (qm : queryModel) (ef : Frame) (count : ℤ) (times : List Time)
    (values : List F64) (hT : qm.Transform < 0 ∨ 5 < qm.Transform) :
    transformStep qm ef count times values
      = .ok (.ret { Frames := [ef], Error := some (.unknownTransform qm.Transform) }) := by
  have h0 : qm.Transform ≠ 0 := by omega
  have h1 : qm.Transform ≠ 1 := by omega
  have h2 : qm.Transform ≠ 2 := by omega
  have h3 : qm.Transform ≠ 3 := by omega
  have h4 : qm.Transform ≠ 4 := by omega
  have h5 : qm.Transform ≠ 5 := by omega
  simp [transformStep, TRANSFORM_NONE, TRANSFORM_FIRST_DERIVATVE,
    TRANSFORM_FIRST_DERIVATVE_1HZ, TRANSFORM_FIRST_DERIVATVE_10HZ,
    TRANSFORM_FIRST_DERIVATVE_100HZ, TRANSFORM_DELTA, h0, h1, h2, h3, h4, h5]

/-! ## From query to the rows -/

/-- The empty text has the single segment `""`. -/
theorem split_empty : Split "" = [""] := by decide

/-- A text with two segments or more is not empty. -/
theorem text_ne_empty_of_split (text service keyword : String) (rest : List String)
    (h : Split text = service :: keyword :: rest) : text ≠ "" := by
  intro he
  rw [he, split_empty] at h
  simp at h

/-- A query that passes the stages before the fetch loop is answered by `processRows`. -/
theorem query_eq_processRows (db : DB) (q : DataQuery) (qm : queryModel) (kt : String)
    (count : ℤ) (rs : RowSet) (h : Fetches db q qm kt count rs) :
    query db q = processRows kt qm (emptyFrame q.TimeRange) count rs := by
  obtain ⟨hd, hs, service, keyword, rest, hsplit, htype, hcount, hquery⟩ := h
  have hne := text_ne_empty_of_split _ _ _ _ hsplit
  simp [query, hd, hs, hne, hsplit, index_zero_cons, index_one_cons, htype, countAndFetch,
    hcount, hquery]

/-- With a row for every iteration, `processRows` hands the decoded times and the converted
values (zeros for a StringValued keyword) to the transform switch and builds the frame from
its result. -/
theorem processRows_fetched (kt : String) (qm : queryModel) (ef : Frame) (n : Nat)
    (rs : RowSet) (hrows : n ≤ rs.rows.length)
    (hscan : ∀ r ∈ rs.rows.take n, r.scanOk kt = true)
    (huc : kt = "KTL_STRING" ∨ (0 ≤ qm.UnitConversion ∧ qm.UnitConversion ≤ 5)) :
    processRows kt qm ef (n : ℤ) rs =
      match transformStep qm ef (n : ℤ) (fetchedTimes (rs.rows.take n))
          (if kt = "KTL_STRING" then List.replicate n F64.zero
           else fetchedValues qm.UnitConversion (rs.rows.take n)) with
      | .error p => .error p
      | .ok (.ret r) => .ok r
      | .ok (.next (times, values_floats)) =>
        .ok (buildResponse kt qm ⟨rs.rows.drop n, rs.failure, none⟩ times values_floats
          (if kt = "KTL_STRING" then fetchedStrings (rs.rows.take n)
           else List.replicate n "")) := by
  obtain ⟨st', hloop, hr, ht, hS, hF⟩ := fetchLoop_enough kt qm ef huc n 0
    (startFetch rs (List.replicate n default) (List.replicate n F64.zero)
      (List.replicate n "")) (by simpa [startFetch] using hrows)
    (by simpa [startFetch] using hscan) (by simp [startFetch]) (by simp [startFetch])
    (by simp [startFetch])
  simp only [processRows, make_natCast, Int.toNat_ofNat, hloop]
  have ht' : st'.times = fetchedTimes (rs.rows.take n) := by
    rw [ht]; simp [startFetch, fetchedTimes]
  have hr' : st'.rows = ⟨rs.rows.drop n, rs.failure, none⟩ := by
    rw [hr]; simp [startFetch]
  by_cases hk : kt = "KTL_STRING"
  · obtain ⟨h1, h2⟩ := hS hk
    have h1' : st'.values_strings = fetchedStrings (rs.rows.take n) := by
      rw [h1]; simp [startFetch, fetchedStrings]
    have h2' : st'.values_floats = List.replicate n F64.zero := by
      rw [h2]; simp [startFetch]
    simp only [ht', hr', h1', h2', hk, if_true]
  · obtain ⟨h1, h2⟩ := hF hk
    have h1' : st'.values_floats = fetchedValues qm.UnitConversion (rs.rows.take n) := by
      rw [h1]; simp [startFetch, fetchedValues]
    have h2' : st'.values_strings = List.replicate n "" := by
      rw [h2]; simp [startFetch]
    simp only [ht', hr', h1', h2', hk, if_false]

/-- On the sample store a query for `svc.KEY` reaches the fetch loop. -/
theorem sample_fetches (type : String) (count : ℤ) (rows : List Row) (uc T : ℤ) :
    Fetches (sampleStore type count rows) (sampleQuery "svc.KEY" uc T)
      (sampleModel "svc.KEY" uc T) type count ⟨rows, none⟩ :=
  ⟨rfl, rfl, "svc", "KEY", [], (by decide : Split "svc.KEY" = ["svc", "KEY"]),
    by simp [sampleStore], by simp [sampleStore], by simp [sampleStore]⟩

/-- C1 (counterexample). The rows `(1 s, 0), (2 s, 0.15)` under Derivative-10Hz: the
difference quotient `dv` is the float64 nearest to 0.15, which lies below 0.15, so the
multiple of 0.1 nearest to `dv` is 0.1 (the nearest integer to `dv * 10` is 1); `query`
returns the float64 nearest to 0.2 instead, because the float64 product `dv * 10` is exactly
1.5 and `math.Round` takes it to 2. -/
theorem derivative_10hz_not_nearest :
    query (sampleStore "KTL_DOUBLE" 2 tenthRows) (sampleQuery "svc.KEY" 0 3)
        = .ok { Frames := [{ Name := "svc.KEY", RefID := "A",
                             Fields := [Field.floats "" [F64.dec 2 10],
                                        Field.times "time" [⟨2000000000⟩]] }],
                Error := none } ∧
      differenceQuotient (fetchedTimes tenthRows) (fetchedValues 0 tenthRows) 1
        = F64.dec 15 100 ∧
      nearestInt ((F64.dec 15 100).toRat * 10) = 1 ∧
      F64.mul (F64.dec 15 100) (F64.ofInt 10) = F64.dec 15 10 ∧
      F64.dec 2 10 ≠ F64.dec 1 10 := by
  refine ⟨by decide, by decide, ?_, by decide, by decide⟩
  have h : F64.dec 15 100 = F64.fin false 5404319552844595 (-55) := by decide
  rw [h]
  simp only [F64.toRat, nearestInt]
  norm_num [Int.floor_eq_iff]

/-- C1 (amended). For a Scalar keyword whose count query returned `n ≥ 2` and whose first `n`
rows scan as float64 under a recognised unit conversion, each derivative option (codes 1-4)
makes `query` answer with one data frame of exactly `n - 1` samples and no error; for `i` in
`[1, n)` output `i - 1` has the time of fetched sample `i` and the value `r(dv)`, where
`dv = (value[i] - value[i-1]) / dt` in float64, `dt` the float64 seconds between samples
`i - 1` and `i`.  The rounding `r` is the identity for Derivative, `math.Round` for 1Hz,
`math.Round(dv*10) / 10` for 10Hz and `math.Round(dv*100) / 100` for 100Hz, each product and
quotient rounded to float64; `math.Round` of a finite float64 is the nearest integer to its
exact value, halves away from zero, so that 2.4 goes to 2 and 2.6 to 3.  The rows
`(1 s, 1.0), (2 s, 2.0), (3 s, 4.0)` under Derivative give the times `[2 s, 3 s]` and the
values `[1.0, 2.0]`; the rows `(1 s, 0), (1.3 s, 0.15)` under 1Hz give the value 1.0 at
1.3 s, the float64 quotient `0.15 / 0.3` being exactly 0.5; the rows `(0 s, 0),
(1e10 s, 1e10)` under Derivative give `1e10 / 9223372036.854776`, since `Time.Sub` stops at
the largest duration; the rows `(1 s, 0), (2 s, 1.234)` under 10Hz give the float64 1.2
and the rows `(1 s, 0), (2 s, -1.234)` under 100Hz the float64 -1.23.  (The float64 1, 2 and 3 are `2^52 * 2^-52`, `2^52 * 2^-51` and
`6755399441055744 * 2^-51`; 1.2 and 1.23 are `5404319552844595 * 2^-52` and
`5539427541665710 * 2^-52`.) -/
theorem derivative_outputs (db : DB) (q : DataQuery) (qm : queryModel) (kt : String)
    (n : Nat) (rs : RowSet) (hfetch : Fetches db q qm kt (n : ℤ) rs)
    (hscalar : kt ≠ "KTL_STRING") (hn : 2 ≤ n) (hrows : n ≤ rs.rows.length)
    (hscan : ∀ r ∈ rs.rows.take n, r.scanOk kt = true)
    (hunit : 0 ≤ qm.UnitConversion ∧ qm.UnitConversion ≤ 5)
    (hT : 1 ≤ qm.Transform ∧ qm.Transform ≤ 4) :
    (∃ dtimes dvalues,
      query db q = .ok { Frames := [{ Name := qm.QueryText, RefID := qm.RefId,
                                      Fields := [Field.floats "" dvalues,
                                                 Field.times "time" dtimes] }],
                         Error := none } ∧
      dtimes.length = n - 1 ∧ dvalues.length = n - 1 ∧
      ∀ i, 1 ≤ i → i < n →
        dtimes[i - 1]? = some ((fetchedTimes (rs.rows.take n)).getD i default) ∧
        dvalues[i - 1]? = some (derivativeRounding qm.Transform
          (differenceQuotient (fetchedTimes (rs.rows.take n))
            (fetchedValues qm.UnitConversion (rs.rows.take n)) i))) ∧
      (∀ dv, derivativeRounding 1 dv = dv) ∧
      (∀ dv, derivativeRounding 2 dv = F64.Round dv) ∧
      (∀ dv, derivativeRounding 3 dv
        = F64.div (F64.Round (F64.mul dv (F64.ofInt 10))) (F64.ofInt 10)) ∧
      (∀ dv, derivativeRounding 4 dv
        = F64.div (F64.Round (F64.mul dv (F64.ofInt 100))) (F64.ofInt 100)) ∧
      (∀ s m e, (F64.Round (F64.fin s m e)).toRat = (nearestInt (F64.fin s m e).toRat : ℚ)) ∧
      F64.Round (F64.dec 24 10) = F64.fin false 4503599627370496 (-51) ∧
      F64.Round (F64.dec 26 10) = F64.fin false 6755399441055744 (-51) ∧
      query (sampleStore "KTL_DOUBLE" 2
            [scalarRow (F64.ofInt 1) (F64.ofInt 0),
             scalarRow (F64.ofInt 2) (F64.dec 1234 1000)])
          (sampleQuery "svc.KEY" 0 3)
        = .ok { Frames := [{ Name := "svc.KEY", RefID := "A",
                             Fields := [Field.floats ""
                                          [F64.fin false 5404319552844595 (-52)],
                                        Field.times "time" [⟨2000000000⟩]] }],
                Error := none } ∧
      query (sampleStore "KTL_DOUBLE" 2
            [scalarRow (F64.ofInt 1) (F64.ofInt 0),
             scalarRow (F64.ofInt 2) (F64.neg (F64.dec 1234 1000))])
          (sampleQuery "svc.KEY" 0 4)
        = .ok { Frames := [{ Name := "svc.KEY", RefID := "A",
                             Fields := [Field.floats ""
                                          [F64.fin true 5539427541665710 (-52)],
                                        Field.times "time" [⟨2000000000⟩]] }],
                Error := none } ∧
      query (sampleStore "KTL_DOUBLE" 3 scenarioRows) (sampleQuery "svc.KEY" 0 1)
        = .ok { Frames := [{ Name := "svc.KEY", RefID := "A",
                             Fields := [Field.floats ""
                                          [F64.fin false 4503599627370496 (-52),
                                           F64.fin false 4503599627370496 (-51)],
                                        Field.times "time"
                                          [⟨2000000000⟩, ⟨3000000000⟩]] }],
                Error := none } ∧
      query (sampleStore "KTL_DOUBLE" 2
            [scalarRow (F64.ofInt 1) (F64.ofInt 0),
             scalarRow (F64.dec 13 10) (F64.dec 15 100)])
          (sampleQuery "svc.KEY" 0 2)
        = .ok { Frames := [{ Name := "svc.KEY", RefID := "A",
                             Fields := [Field.floats ""
                                          [F64.fin false 4503599627370496 (-52)],
                                        Field.times "time" [⟨1300000000⟩]] }],
                Error := none } ∧
      query (sampleStore "KTL_DOUBLE" 2
            [scalarRow (F64.ofInt 0) (F64.ofInt 0),
             scalarRow (F64.ofInt 10000000000) (F64.ofInt 10000000000)])
          (sampleQuery "svc.KEY" 0 1)
        = .ok { Frames := [{ Name := "svc.KEY", RefID := "A",
                             Fields := [Field.floats ""
                                          [F64.fin false 4882812500000000 (-52)],
                                        Field.times "time" [⟨10000000000000000000⟩]] }],
                Error := none } := by
  have hlen : (rs.rows.take n).length = n := by simp [hrows]
  refine ⟨⟨(List.range' 1 (n - 1)).map
      (fun k => (fetchedTimes (rs.rows.take n)).getD k default),
    (List.range' 1 (n - 1)).map (fun k => derivativeRounding qm.Transform
      (differenceQuotient (fetchedTimes (rs.rows.take n))
        (fetchedValues qm.UnitConversion (rs.rows.take n)) k)), ?_, ?_, ?_, ?_⟩,
    fun _ => rfl, fun _ => rfl, fun _ => rfl, fun _ => rfl, round_nearest_integer,
    by decide, by decide, by decide, by decide, by decide, by decide, by decide⟩
  · rw [query_eq_processRows db q qm kt n rs hfetch,
      processRows_fetched kt qm _ n rs hrows hscan (Or.inr hunit)]
    simp only [hscalar, if_false]
    rw [transformStep_derivative qm _ n _ _ hT (by omega) (by simp [fetchedTimes, hrows])
      (by simp [fetchedValues, hrows])]
    simp only [buildResponse, hscalar, if_false, Rows.Err]
  · simp
  · simp
  · intro i h1 hi
    exact ⟨range_map_getElem? (fun k => (fetchedTimes (rs.rows.take n)).getD k default) n i h1 hi,
      range_map_getElem? _ n i h1 hi⟩

/-- C1 (sample). The scenario rows `(1 s, 1.0), (2 s, 2.0), (3 s, 4.0)` under Derivative. -/
theorem derivative_outputs_witness :
    (∃ dtimes dvalues,
      query (sampleStore "KTL_DOUBLE" 3 scenarioRows) (sampleQuery "svc.KEY" 0 1)
        = .ok { Frames := [{ Name := "svc.KEY", RefID := "A",
                             Fields := [Field.floats "" dvalues,
                                        Field.times "time" dtimes] }],
                Error := none } ∧
      dtimes.length = 3 - 1 ∧ dvalues.length = 3 - 1 ∧
      ∀ i, 1 ≤ i → i < 3 →
        dtimes[i - 1]? = some ((fetchedTimes (scenarioRows.take 3)).getD i default) ∧
        dvalues[i - 1]? = some (derivativeRounding 1
          (differenceQuotient (fetchedTimes (scenarioRows.take 3))
            (fetchedValues 0 (scenarioRows.take 3)) i))) ∧
      (∀ dv, derivativeRounding 1 dv = dv) ∧
      (∀ dv, derivativeRounding 2 dv = F64.Round dv) ∧
      (∀ dv, derivativeRounding 3 dv
        = F64.div (F64.Round (F64.mul dv (F64.ofInt 10))) (F64.ofInt 10)) ∧
      (∀ dv, derivativeRounding 4 dv
        = F64.div (F64.Round (F64.mul dv (F64.ofInt 100))) (F64.ofInt 100)) ∧
      (∀ s m e, (F64.Round (F64.fin s m e)).toRat = (nearestInt (F64.fin s m e).toRat : ℚ)) ∧
      F64.Round (F64.dec 24 10) = F64.fin false 4503599627370496 (-51) ∧
      F64.Round (F64.dec 26 10) = F64.fin false 6755399441055744 (-51) ∧
      query (sampleStore "KTL_DOUBLE" 2
            [scalarRow (F64.ofInt 1) (F64.ofInt 0),
             scalarRow (F64.ofInt 2) (F64.dec 1234 1000)])
          (sampleQuery "svc.KEY" 0 3)
        = .ok { Frames := [{ Name := "svc.KEY", RefID := "A",
                             Fields := [Field.floats ""
                                          [F64.fin false 5404319552844595 (-52)],
                                        Field.times "time" [⟨2000000000⟩]] }],
                Error := none } ∧
      query (sampleStore "KTL_DOUBLE" 2
            [scalarRow (F64.ofInt 1) (F64.ofInt 0),
             scalarRow (F64.ofInt 2) (F64.neg (F64.dec 1234 1000))])
          (sampleQuery "svc.KEY" 0 4)
        = .ok { Frames := [{ Name := "svc.KEY", RefID := "A",
                             Fields := [Field.floats ""
                                          [F64.fin true 5539427541665710 (-52)],
                                        Field.times "time" [⟨2000000000⟩]] }],
                Error := none } ∧
      query (sampleStore "KTL_DOUBLE" 3 scenarioRows) (sampleQuery "svc.KEY" 0 1)
        = .ok { Frames := [{ Name := "svc.KEY", RefID := "A",
                             Fields := [Field.floats ""
                                          [F64.fin false 4503599627370496 (-52),
                                           F64.fin false 4503599627370496 (-51)],
                                        Field.times "time"
                                          [⟨2000000000⟩, ⟨3000000000⟩]] }],
                Error := none } ∧
      query (sampleStore "KTL_DOUBLE" 2
            [scalarRow (F64.ofInt 1) (F64.ofInt 0),
             scalarRow (F64.dec 13 10) (F64.dec 15 100)])
          (sampleQuery "svc.KEY" 0 2)
        = .ok { Frames := [{ Name := "svc.KEY", RefID := "A",
                             Fields := [Field.floats ""
                                          [F64.fin false 4503599627370496 (-52)],
                                        Field.times "time" [⟨1300000000⟩]] }],
                Error := none } ∧
      query (sampleStore "KTL_DOUBLE" 2
            [scalarRow (F64.ofInt 0) (F64.ofInt 0),
             scalarRow (F64.ofInt 10000000000) (F64.ofInt 10000000000)])
          (sampleQuery "svc.KEY" 0 1)
        = .ok { Frames := [{ Name := "svc.KEY", RefID := "A",
                             Fields := [Field.floats ""
                                          [F64.fin false 4882812500000000 (-52)],
                                        Field.times "time" [⟨10000000000000000000⟩]] }],
                Error := none } :=
  derivative_outputs (sampleStore "KTL_DOUBLE" 3 scenarioRows) (sampleQuery "svc.KEY" 0 1)
    (sampleModel "svc.KEY" 0 1) "KTL_DOUBLE" 3 ⟨scenarioRows, none⟩
    ⟨rfl, rfl, "svc", "KEY", [], by decide, by decide, by decide, by decide⟩
    (by decide) (by decide) (by decide) (by decide) (by decide) (by decide)

/-- Derivative-1Hz on the values `[0, 2.4, 5.0]` one second apart: the quotients, the float64
nearest to 2.4 and to 2.6, are stored as 2 and 3. -/
theorem scenario_derivative_1hz :
    query (sampleStore "KTL_DOUBLE" 3
          [scalarRow (F64.ofInt 1) (F64.ofInt 0), scalarRow (F64.ofInt 2) (F64.dec 24 10),
           scalarRow (F64.ofInt 3) (F64.ofInt 5)])
        (sampleQuery "svc.KEY" 0 2)
      = .ok { Frames := [{ Name := "svc.KEY", RefID := "A",
                           Fields := [Field.floats "" [F64.ofInt 2, F64.ofInt 3],
                                      Field.times "time" [⟨2000000000⟩, ⟨3000000000⟩]] }],
              Error := none } := by
  decide

/-- C2. For a Scalar keyword whose count query returned `n ≥ 2` and whose first `n` rows
scan as float64 under a recognised unit conversion, the Delta option (code 5) makes `query`
answer with one data frame of exactly `n - 1` samples and no error; for `i` in `[1, n)`
output `i - 1` has the time of fetched sample `i` and the value `value[i] - value[i-1]`, the
float64 difference, with no division by the time step.  The values `[1.0, 2.0, 4.0]`
sampled at 1 s, 2 s and 7 s give `[1.0, 2.0]`, the float64 `2^52 * 2^-52` and
`2^52 * 2^-51`, at the times of the second and third sample; the values `[-1, 2^53]` give
`2^53`, the float64 nearest to the difference `2^53 + 1`. -/
theorem delta_outputs (db : DB) (q : DataQuery) (qm : queryModel) (kt : String)
    (n : Nat) (rs : RowSet) (hfetch : Fetches db q qm kt (n : ℤ) rs)
    (hscalar : kt ≠ "KTL_STRING") (hn : 2 ≤ n) (hrows : n ≤ rs.rows.length)
    (hscan : ∀ r ∈ rs.rows.take n, r.scanOk kt = true)
    (hunit : 0 ≤ qm.UnitConversion ∧ qm.UnitConversion ≤ 5)
    (hT : qm.Transform = 5) :
    (∃ dtimes dvalues,
      query db q = .ok { Frames := [{ Name := qm.QueryText, RefID := qm.RefId,
                                      Fields := [Field.floats "" dvalues,
                                                 Field.times "time" dtimes] }],
                         Error := none } ∧
      dtimes.length = n - 1 ∧ dvalues.length = n - 1 ∧
      ∀ i, 1 ≤ i → i < n →
        dtimes[i - 1]? = some ((fetchedTimes (rs.rows.take n)).getD i default) ∧
        dvalues[i - 1]? = some (F64.sub
          ((fetchedValues qm.UnitConversion (rs.rows.take n)).getD i F64.zero)
          ((fetchedValues qm.UnitConversion (rs.rows.take n)).getD (i - 1) F64.zero))) ∧
      query (sampleStore "KTL_DOUBLE" 3
            [scalarRow (F64.ofInt 1) (F64.ofInt 1), scalarRow (F64.ofInt 2) (F64.ofInt 2),
             scalarRow (F64.ofInt 7) (F64.ofInt 4)])
          (sampleQuery "svc.KEY" 0 5)
        = .ok { Frames := [{ Name := "svc.KEY", RefID := "A",
                             Fields := [Field.floats ""
                                          [F64.fin false 4503599627370496 (-52),
                                           F64.fin false 4503599627370496 (-51)],
                                        Field.times "time"
                                          [⟨2000000000⟩, ⟨7000000000⟩]] }],
                Error := none } ∧
      query (sampleStore "KTL_DOUBLE" 2
            [scalarRow (F64.ofInt 1) (F64.ofInt (-1)),
             scalarRow (F64.ofInt 2) (F64.ofInt 9007199254740992)])
          (sampleQuery "svc.KEY" 0 5)
        = .ok { Frames := [{ Name := "svc.KEY", RefID := "A",
                             Fields := [Field.floats ""
                                          [F64.fin false 4503599627370496 1],
                                        Field.times "time" [⟨2000000000⟩]] }],
                Error := none } := by
  have hlen : (rs.rows.take n).length = n := by simp [hrows]
  refine ⟨⟨(List.range' 1 (n - 1)).map
      (fun k => (fetchedTimes (rs.rows.take n)).getD k default),
    (List.range' 1 (n - 1)).map (fun k => F64.sub
      ((fetchedValues qm.UnitConversion (rs.rows.take n)).getD k F64.zero)
      ((fetchedValues qm.UnitConversion (rs.rows.take n)).getD (k - 1) F64.zero)),
    ?_, ?_, ?_, ?_⟩, by decide, by decide⟩
  · rw [query_eq_processRows db q qm kt n rs hfetch,
      processRows_fetched kt qm _ n rs hrows hscan (Or.inr hunit)]
    simp only [hscalar, if_false]
    rw [transformStep_delta qm _ n _ _ hT (by omega) (by simp [fetchedTimes, hrows])
      (by simp [fetchedValues, hrows])]
    simp only [buildResponse, hscalar, if_false, Rows.Err]
  · simp
  · simp
  · intro i h1 hi
    exact ⟨range_map_getElem? (fun k => (fetchedTimes (rs.rows.take n)).getD k default) n i h1 hi,
      range_map_getElem? _ n i h1 hi⟩

/-- C2 (sample). The values `[1.0, 2.0, 4.0]` under Delta give `[1.0, 2.0]` at the times of
the second and third sample. -/
theorem delta_outputs_witness :
    (∃ dtimes dvalues,
      query (sampleStore "KTL_DOUBLE" 3 scenarioRows) (sampleQuery "svc.KEY" 0 5)
        = .ok { Frames := [{ Name := "svc.KEY", RefID := "A",
                             Fields := [Field.floats "" dvalues,
                                        Field.times "time" dtimes] }],
                Error := none } ∧
      dtimes.length = 3 - 1 ∧ dvalues.length = 3 - 1 ∧
      ∀ i, 1 ≤ i → i < 3 →
        dtimes[i - 1]? = some ((fetchedTimes (scenarioRows.take 3)).getD i default) ∧
        dvalues[i - 1]? = some (F64.sub
          ((fetchedValues 0 (scenarioRows.take 3)).getD i F64.zero)
          ((fetchedValues 0 (scenarioRows.take 3)).getD (i - 1) F64.zero))) ∧
      query (sampleStore "KTL_DOUBLE" 3
            [scalarRow (F64.ofInt 1) (F64.ofInt 1), scalarRow (F64.ofInt 2) (F64.ofInt 2),
             scalarRow (F64.ofInt 7) (F64.ofInt 4)])
          (sampleQuery "svc.KEY" 0 5)
        = .ok { Frames := [{ Name := "svc.KEY", RefID := "A",
                             Fields := [Field.floats ""
                                          [F64.fin false 4503599627370496 (-52),
                                           F64.fin false 4503599627370496 (-51)],
                                        Field.times "time"
                                          [⟨2000000000⟩, ⟨7000000000⟩]] }],
                Error := none } ∧
      query (sampleStore "KTL_DOUBLE" 2
            [scalarRow (F64.ofInt 1) (F64.ofInt (-1)),
             scalarRow (F64.ofInt 2) (F64.ofInt 9007199254740992)])
          (sampleQuery "svc.KEY" 0 5)
        = .ok { Frames := [{ Name := "svc.KEY", RefID := "A",
                             Fields := [Field.floats ""
                                          [F64.fin false 4503599627370496 1],
                                        Field.times "time" [⟨2000000000⟩]] }],
                Error := none } :=
  delta_outputs (sampleStore "KTL_DOUBLE" 3 scenarioRows) (sampleQuery "svc.KEY" 0 5)
    (sampleModel "svc.KEY" 0 5) "KTL_DOUBLE" 3 ⟨scenarioRows, none⟩
    ⟨rfl, rfl, "svc", "KEY", [], by decide, by decide, by decide, by decide⟩
    (by decide) (by decide) (by decide) (by decide) (by decide) (by decide)

/-! ## Short windows and StringValued keywords -/

/-- C3 (failing input). With a count of 0 the derivative and the Delta options make
`query` panic in `make([]time.Time, count-1)`: the length is -1. -/
theorem empty_window_transform_panics :
    query (sampleStore "KTL_DOUBLE" 0 []) (sampleQuery "svc.KEY" 0 1)
        = .error Panic.makesliceLenOutOfRange ∧
      query (sampleStore "KTL_DOUBLE" 0 []) (sampleQuery "svc.KEY" 0 5)
        = .error Panic.makesliceLenOutOfRange := by
  decide

/-- Whenever the count is 0, each transform code 1..5 makes `query` panic in its allocation. -/
theorem zero_count_transform_panics (db : DB) (q : DataQuery) (qm : queryModel)
    (kt : String) (rs : RowSet) (hfetch : Fetches db q qm kt 0 rs)
    (hT : 1 ≤ qm.Transform ∧ qm.Transform ≤ 5) :
    query db q = .error Panic.makesliceLenOutOfRange := by
  rw [query_eq_processRows db q qm kt 0 rs hfetch]
  have h : qm.Transform = 1 ∨ qm.Transform = 2 ∨ qm.Transform = 3 ∨ qm.Transform = 4
      ∨ qm.Transform = 5 := by omega
  rcases h with h | h | h | h | h <;>
    simp [processRows, make, fetchLoop, transformStep, diffTransform, h, TRANSFORM_NONE,
      TRANSFORM_FIRST_DERIVATVE, TRANSFORM_FIRST_DERIVATVE_1HZ,
      TRANSFORM_FIRST_DERIVATVE_10HZ, TRANSFORM_FIRST_DERIVATVE_100HZ, TRANSFORM_DELTA]

/-- With a count of 1 the derivative and the Delta options return two empty arrays. -/
theorem single_row_transform_empty :
    query (sampleStore "KTL_DOUBLE" 1 [scalarRow (F64.ofInt 1) (F64.ofInt 1)])
          (sampleQuery "svc.KEY" 0 1)
        = .ok { Frames := [{ Name := "svc.KEY", RefID := "A",
                             Fields := [Field.floats "" [], Field.times "time" []] }],
                Error := none } ∧
      query (sampleStore "KTL_DOUBLE" 1 [scalarRow (F64.ofInt 1) (F64.ofInt 1)])
          (sampleQuery "svc.KEY" 0 5)
        = .ok { Frames := [{ Name := "svc.KEY", RefID := "A",
                             Fields := [Field.floats "" [], Field.times "time" []] }],
                Error := none } := by
  decide

/-- C4 (failing input). A StringValued keyword with two rows under Delta: the frame carries
both strings but only the time of the second row, so the two arrays differ in length. -/
theorem string_transform_length_mismatch :
    query (sampleStore "KTL_STRING" 2
          [stringRow (F64.ofInt 1) "a", stringRow (F64.ofInt 2) "b"])
        (sampleQuery "svc.KEY" 0 5)
      = .ok { Frames := [{ Name := "svc.KEY", RefID := "A",
                           Fields := [Field.strings "" ["a", "b"],
                                      Field.times "time" [⟨2000000000⟩]] }],
              Error := none } := by
  decide

/-- A StringValued keyword without transform: strings and times pass through, one to one. -/
theorem string_none_passthrough :
    query (sampleStore "KTL_STRING" 2
          [stringRow (F64.ofInt 1) "a", stringRow (F64.ofInt 2) "b"])
        (sampleQuery "svc.KEY" 0 0)
      = .ok { Frames := [{ Name := "svc.KEY", RefID := "A",
                           Fields := [Field.strings "" ["a", "b"],
                                      Field.times "time" [⟨1000000000⟩, ⟨2000000000⟩]] }],
              Error := none } := by
  decide

/-! ## Unit conversion per sample -/

/-- C5. After the fetch loop has consumed `c` rows that scan for the keyword's type, the
buffer of a Scalar keyword holds, for each row in order, the scanned value `x` converted by
the option code in float64: 0 gives `x`, 1 gives `x * (pi/180)`, 2 gives `x * (180/pi)`, 3
gives `x * (3600*180/pi)`, 4 gives `x + 273.15`, 5 gives `x - 273.15`, each constant being
the float64 nearest to the exact constant and each product, sum and difference rounded to
float64.  For a StringValued keyword the strings are stored as scanned, whatever the option
code, and the float buffer keeps its zeros.  The four constants are given by significand and
exponent, and the switch of the loop is evaluated on samples: 1.0 under the codes 0, 2, 4
and 5 gives the float64 `1.0`, `180/pi`, `274.15` and `-272.15`, 180 under code 1 the float64
nearest to pi, and `2^1023` under code 3 overflows to `+Inf`. -/
theorem unit_conversion_stored (kt : String) (qm : queryModel) (ef : Frame) (c : Nat)
    (rs : RowSet) (hrows : c ≤ rs.rows.length)
    (hscan : ∀ r ∈ rs.rows.take c, r.scanOk kt = true)
    (hunit : kt = "KTL_STRING" ∨ (0 ≤ qm.UnitConversion ∧ qm.UnitConversion ≤ 5)) :
    (∃ st, fetchLoop kt qm ef c 0 (startFetch rs (List.replicate c default)
        (List.replicate c F64.zero) (List.replicate c "")) = .ok (.next st) ∧
      (kt ≠ "KTL_STRING" →
        st.values_floats = (rs.rows.take c).map (fun r =>
          if qm.UnitConversion = 0 then r.floatValue
          else if qm.UnitConversion = 1 then F64.mul r.floatValue DEG_TO_RAD
          else if qm.UnitConversion = 2 then F64.mul r.floatValue RAD_TO_DEG
          else if qm.UnitConversion = 3 then F64.mul r.floatValue RAD_TO_ARCSEC
          else if qm.UnitConversion = 4 then F64.add r.floatValue KELVIN_OFFSET
          else F64.sub r.floatValue KELVIN_OFFSET)) ∧
      (kt = "KTL_STRING" →
        st.values_strings = (rs.rows.take c).map Row.stringValue ∧
        st.values_floats = List.replicate c F64.zero)) ∧
      DEG_TO_RAD = F64.fin false 5030569068109113 (-58) ∧
      RAD_TO_DEG = F64.fin false 8063664102031864 (-47) ∧
      RAD_TO_ARCSEC = F64.fin false 7087204777176443 (-35) ∧
      KELVIN_OFFSET = F64.fin false 4805305618032230 (-44) ∧
      unitConvert 0 (F64.ofInt 1) = some (F64.fin false 4503599627370496 (-52)) ∧
      unitConvert 1 (F64.ofInt 180) = some (F64.fin false 7074237752028440 (-51)) ∧
      unitConvert 2 (F64.ofInt 1) = some (F64.fin false 8063664102031864 (-47)) ∧
      unitConvert 3 (F64.fin false (2 ^ 52) 971) = some (F64.inf false) ∧
      unitConvert 4 (F64.ofInt 1) = some (F64.fin false 4822897804076646 (-44)) ∧
      unitConvert 5 (F64.ofInt 1) = some (F64.fin true 4787713431987814 (-44)) := by
  obtain ⟨st', hloop, _, _, hS, hF⟩ := fetchLoop_enough kt qm ef hunit c 0
    (startFetch rs (List.replicate c default) (List.replicate c F64.zero)
      (List.replicate c "")) (by simpa [startFetch] using hrows)
    (by simpa [startFetch] using hscan) (by simp [startFetch]) (by simp [startFetch])
    (by simp [startFetch])
  refine ⟨⟨st', hloop, ?_, ?_⟩, by decide, by decide, by decide, by decide, by decide,
    by decide, by decide, by decide, by decide, by decide⟩
  · intro hk
    have hu : 0 ≤ qm.UnitConversion ∧ qm.UnitConversion ≤ 5 := by
      rcases hunit with h | h
      · exact absurd h hk
      · exact h
    rw [(hF hk).1]
    simp only [startFetch, List.take_zero, List.nil_append, Nat.zero_add,
      List.length_replicate, List.drop_replicate, Nat.sub_self, List.replicate_zero,
      List.append_nil]
    apply List.map_congr_left
    intro r _
    have h : qm.UnitConversion = 0 ∨ qm.UnitConversion = 1 ∨ qm.UnitConversion = 2
        ∨ qm.UnitConversion = 3 ∨ qm.UnitConversion = 4 ∨ qm.UnitConversion = 5 := by omega
    rcases h with h | h | h | h | h | h <;> simp [convertTable, h]
  · intro hk
    obtain ⟨h1, h2⟩ := hS hk
    refine ⟨?_, ?_⟩
    · rw [h1]; simp [startFetch]
    · rw [h2]; simp [startFetch]

/-- C5 (sample). Code 4 on the scenario rows. -/
theorem unit_conversion_stored_witness :
    (∃ st, fetchLoop "KTL_DOUBLE" (sampleModel "svc.KEY" 4 0) (emptyFrame sampleRange) 3 0
        (startFetch ⟨scenarioRows, none⟩ (List.replicate 3 default)
          (List.replicate 3 F64.zero) (List.replicate 3 "")) = .ok (.next st) ∧
      (("KTL_DOUBLE" : String) ≠ "KTL_STRING" →
        st.values_floats = (scenarioRows.take 3).map (fun r =>
          if (sampleModel "svc.KEY" 4 0).UnitConversion = 0 then r.floatValue
          else if (sampleModel "svc.KEY" 4 0).UnitConversion = 1 then
            F64.mul r.floatValue DEG_TO_RAD
          else if (sampleModel "svc.KEY" 4 0).UnitConversion = 2 then
            F64.mul r.floatValue RAD_TO_DEG
          else if (sampleModel "svc.KEY" 4 0).UnitConversion = 3 then
            F64.mul r.floatValue RAD_TO_ARCSEC
          else if (sampleModel "svc.KEY" 4 0).UnitConversion = 4 then
            F64.add r.floatValue KELVIN_OFFSET
          else F64.sub r.floatValue KELVIN_OFFSET)) ∧
      (("KTL_DOUBLE" : String) = "KTL_STRING" →
        st.values_strings = (scenarioRows.take 3).map Row.stringValue ∧
        st.values_floats = List.replicate 3 F64.zero)) ∧
      DEG_TO_RAD = F64.fin false 5030569068109113 (-58) ∧
      RAD_TO_DEG = F64.fin false 8063664102031864 (-47) ∧
      RAD_TO_ARCSEC = F64.fin false 7087204777176443 (-35) ∧
      KELVIN_OFFSET = F64.fin false 4805305618032230 (-44) ∧
      unitConvert 0 (F64.ofInt 1) = some (F64.fin false 4503599627370496 (-52)) ∧
      unitConvert 1 (F64.ofInt 180) = some (F64.fin false 7074237752028440 (-51)) ∧
      unitConvert 2 (F64.ofInt 1) = some (F64.fin false 8063664102031864 (-47)) ∧
      unitConvert 3 (F64.fin false (2 ^ 52) 971) = some (F64.inf false) ∧
      unitConvert 4 (F64.ofInt 1) = some (F64.fin false 4822897804076646 (-44)) ∧
      unitConvert 5 (F64.ofInt 1) = some (F64.fin true 4787713431987814 (-44)) :=
  unit_conversion_stored "KTL_DOUBLE" (sampleModel "svc.KEY" 4 0) (emptyFrame sampleRange) 3
    ⟨scenarioRows, none⟩ (by decide) (by decide) (Or.inr (by decide))

/-- The stored values of the scenario rows `1.0, 2.0, 4.0` under code 4: the float64 sums
`274.15, 275.15, 277.15`; the first is `4822897804076646 * 2^-44`. -/
theorem scenario_kelvin :
    query (sampleStore "KTL_DOUBLE" 3 scenarioRows) (sampleQuery "svc.KEY" 4 0)
      = .ok { Frames := [{ Name := "svc.KEY", RefID := "A",
                           Fields := [Field.floats ""
                                        [F64.fin false 4822897804076646 (-44),
                                         F64.dec 27515 100, F64.dec 27715 100],
                                      Field.times "time"
                                        [⟨1000000000⟩, ⟨2000000000⟩, ⟨3000000000⟩]] }],
              Error := none } := by
  decide

/-- C6 (counterexample). A Scalar keyword, unit conversion 99, a count of 0 and no
transform: `query` reports no error and returns the data frame with two empty arrays, not
the boundary frame. -/
theorem unknown_unit_zero_rows_no_error :
    query (sampleStore "KTL_DOUBLE" 0 []) (sampleQuery "svc.KEY" 99 0)
      = .ok { Frames := [{ Name := "svc.KEY", RefID := "A",
                           Fields := [Field.floats "" [], Field.times "time" []] }],
              Error := none } := by
  decide

/-- C6 (amended). For a Scalar keyword whose unit conversion code is outside 0..5, a count
of at least 1 and a first row that, when the cursor delivers one, scans as a float64,
`query` answers for every transform option with the unknown-unit-conversion error and
exactly one frame, the boundary frame holding only the two endpoints of the requested
range. -/
theorem unknown_unit_conversion_response (db : DB) (q : DataQuery) (qm : queryModel)
    (kt : String) (count : ℤ) (rs : RowSet) (hfetch : Fetches db q qm kt count rs)
    (hscalar : kt ≠ "KTL_STRING") (hcount : 1 ≤ count)
    (hfirst : ∀ r, rs.rows.head? = some r → r.scanOk kt = true)
    (hunit : qm.UnitConversion < 0 ∨ 5 < qm.UnitConversion) :
    query db q = .ok
      { Frames := [{ Name := "response", RefID := "",
                     Fields := [Field.times "time" [q.TimeRange.From, q.TimeRange.To]] }],
        Error := some (.unknownUnitConversion qm.UnitConversion) } := by
  obtain ⟨c, rfl⟩ : ∃ c : Nat, count = ((c + 1 : ℕ) : ℤ) :=
    ⟨(count - 1).toNat, by omega⟩
  have hnone : ∀ x, unitConvert qm.UnitConversion x = none := by
    intro x
    have h0 : qm.UnitConversion ≠ 0 := by omega
    have h1 : qm.UnitConversion ≠ 1 := by omega
    have h2 : qm.UnitConversion ≠ 2 := by omega
    have h3 : qm.UnitConversion ≠ 3 := by omega
    have h4 : qm.UnitConversion ≠ 4 := by omega
    have h5 : qm.UnitConversion ≠ 5 := by omega
    simp [unitConvert, UNIT_CONVERT_NONE, UNIT_CONVERT_DEG_TO_RAD, UNIT_CONVERT_RAD_TO_DEG,
      UNIT_CONVERT_RAD_TO_ARCSEC, UNIT_CONVERT_K_TO_C, UNIT_CONVERT_C_TO_K, h0, h1, h2, h3,
      h4, h5]
  rw [query_eq_processRows db q qm kt _ rs hfetch]
  obtain ⟨rows, failure⟩ := rs
  cases rows with
  | nil =>
    simp only [processRows, make_natCast, Int.toNat_ofNat, startFetch, fetchLoop]
    simp [fetchBody, scanNext, Rows.Next, store, hscalar, hnone, emptyFrame]
  | cons r rest =>
    have hr : r.scanOk kt = true := hfirst r (by simp)
    cases hflt : r.flt with
    | error e => simp [Row.scanOk, hscalar, hflt] at hr
    | ok x =>
      simp only [processRows, make_natCast, Int.toNat_ofNat, startFetch, fetchLoop]
      simp [fetchBody, scanNext, Rows.Next, store, hscalar, hflt, hnone, emptyFrame]

/-- C6 (sample). Unit conversion 99 on the scenario rows, with the Derivative option. -/
theorem unknown_unit_conversion_response_witness :
    query (sampleStore "KTL_DOUBLE" 3 scenarioRows) (sampleQuery "svc.KEY" 99 1) = .ok
      { Frames := [{ Name := "response", RefID := "",
                     Fields := [Field.times "time" [sampleRange.From, sampleRange.To]] }],
        Error := some (.unknownUnitConversion 99) } :=
  unknown_unit_conversion_response (sampleStore "KTL_DOUBLE" 3 scenarioRows)
    (sampleQuery "svc.KEY" 99 1) (sampleModel "svc.KEY" 99 1) "KTL_DOUBLE" 3
    ⟨scenarioRows, none⟩
    ⟨rfl, rfl, "svc", "KEY", [], by decide, by decide, by decide, by decide⟩
    (by decide) (by decide) (by decide) (by decide)

/-! ## Unknown transform, missing metadata, query text -/

/-- C7. When the metadata lookup, the count query (count `c`) and the ordered fetch succeed,
every row the loop consumes scans for the keyword's type, the unit conversion is one of
0..5 and the transform code is outside 0..5, `query` answers with the unknown-transform
error and exactly one frame, the boundary frame holding only the two endpoints of the
requested range; no frame with fetched values is returned. -/
theorem unknown_transform_response (db : DB) (q : DataQuery) (qm : queryModel) (kt : String)
    (c : Nat) (rs : RowSet) (hfetch : Fetches db q qm kt (c : ℤ) rs)
    (hscan : ∀ r ∈ rs.rows.take c, r.scanOk kt = true)
    (hunit : 0 ≤ qm.UnitConversion ∧ qm.UnitConversion ≤ 5)
    (hT : qm.Transform < 0 ∨ 5 < qm.Transform) :
    query db q = .ok
      { Frames := [{ Name := "response", RefID := "",
                     Fields := [Field.times "time" [q.TimeRange.From, q.TimeRange.To]] }],
        Error := some (.unknownTransform qm.Transform) } := by
  obtain ⟨st', hloop⟩ := fetchLoop_next kt qm (emptyFrame q.TimeRange) (Or.inr hunit) c 0
    (startFetch rs (List.replicate c default) (List.replicate c F64.zero)
      (List.replicate c ""))
    (by simpa [startFetch] using hscan) (by simp [startFetch]) (by simp [startFetch])
    (by simp [startFetch])
  rw [query_eq_processRows db q qm kt c rs hfetch]
  simp only [processRows, make_natCast, Int.toNat_ofNat, hloop,
    transformStep_unknown qm _ _ _ _ hT]
  rfl

/-- C7 (sample). Transform code 99 on the scenario rows. -/
theorem unknown_transform_response_witness :
    query (sampleStore "KTL_DOUBLE" 3 scenarioRows) (sampleQuery "svc.KEY" 0 99) = .ok
      { Frames := [{ Name := "response", RefID := "",
                     Fields := [Field.times "time" [sampleRange.From, sampleRange.To]] }],
        Error := some (.unknownTransform 99) } :=
  unknown_transform_response (sampleStore "KTL_DOUBLE" 3 scenarioRows)
    (sampleQuery "svc.KEY" 0 99) (sampleModel "svc.KEY" 0 99) "KTL_DOUBLE" 3
    ⟨scenarioRows, none⟩
    ⟨rfl, rfl, "svc", "KEY", [], by decide, by decide, by decide, by decide⟩
    (by decide) (by decide) (by decide)

/-- C8. For a visible query whose text has a service and a keyword segment and whose
`(service, keyword)` pair has no row in the metadata relation, `query` answers, whatever
the unit conversion and transform codes, with no error and exactly one frame, whose only
field is the time field holding the two endpoints `(from, to)` of the requested range. -/
theorem missing_metadata_response (db : DB) (q : DataQuery) (qm : queryModel)
    (service keyword : String) (rest : List String) (hdecoded : q.JSON = .ok qm)
    (hshown : qm.Hide = false) (hsplit : Split qm.QueryText = service :: keyword :: rest)
    (hmeta : db.QueryRowType service keyword = .noRows) :
    query db q = .ok
      { Frames := [{ Name := "response", RefID := "",
                     Fields := [Field.times "time" [q.TimeRange.From, q.TimeRange.To]] }],
        Error := none } := by
  have hne := text_ne_empty_of_split _ _ _ _ hsplit
  simp [query, hdecoded, hshown, hne, hsplit, index_zero_cons, index_one_cons, hmeta,
    emptyFrame]

/-- C8 (sample). The keyword `svc.OTHER` has no metadata row in the sample store. -/
theorem missing_metadata_response_witness :
    query (sampleStore "KTL_DOUBLE" 3 scenarioRows) (sampleQuery "svc.OTHER" 99 7) = .ok
      { Frames := [{ Name := "response", RefID := "",
                     Fields := [Field.times "time" [sampleRange.From, sampleRange.To]] }],
        Error := none } :=
  missing_metadata_response (sampleStore "KTL_DOUBLE" 3 scenarioRows)
    (sampleQuery "svc.OTHER" 99 7) (sampleModel "svc.OTHER" 99 7) "svc" "OTHER" [] rfl rfl
    (by decide) (by decide)

/-- A bare service name: `sk[1]` is read past the end, `query` panics and so does the loop of
`QueryData`, before it reaches the next query. -/
theorem bare_service_panics :
    query (sampleStore "KTL_DOUBLE" 3 scenarioRows) (sampleQuery "service" 0 0)
        = .error (Panic.indexOutOfRange 1 1) ∧
      queryLoop (sampleStore "KTL_DOUBLE" 3 scenarioRows)
          [sampleQuery "service" 0 0, sampleQuery "svc.OTHER" 0 0] []
        = .error (Panic.indexOutOfRange 1 1) := by
  decide

/-- A count of 2 against the three scenario rows, evaluated: the third row is ignored. -/
theorem scenario_count_bound :
    query (sampleStore "KTL_DOUBLE" 2 scenarioRows) (sampleQuery "svc.KEY" 0 0)
      = .ok { Frames := [{ Name := "svc.KEY", RefID := "A",
                           Fields := [Field.floats "" [F64.ofInt 1, F64.ofInt 2],
                                      Field.times "time" [⟨1000000000⟩, ⟨2000000000⟩]] }],
              Error := none } := by
  decide

/-- A timestamp of `2^63 - 1024` seconds: the seconds fit an int64, but the counter of
`time.Unix`, which starts at the year 1, wraps around, and the decoded instant lies
`2^64` seconds earlier. -/
theorem decodeTime_wraps :
    decodeTime (F64.fin false (2 ^ 53 - 1) 10)
      = ⟨(9223372036854774784 - 18446744073709551616) * 1000000000⟩ := by
  decide

/-! ## The derivative of a constant series -/

/-- C11 (counterexample). Two samples of one and the same value under Derivative give NaN,
not 0: the value 5.0 with one and the same timestamp; the value 5.0 with strictly ascending
timestamps, the float64 nearest to 0.3 s and the next float64 above it, which both decode to
the instant 300000000 ns, so that `dt` is 0 and the quotient is `0 / 0`; the value `+Inf` one
second apart, since `Inf - Inf` is NaN; and the finite value `2^1023` one second apart under
the unit conversion 3, whose float64 product overflows to `+Inf`. -/
theorem constant_series_derivative_nan :
    query (sampleStore "KTL_DOUBLE" 2 tiedRows) (sampleQuery "svc.KEY" 0 1)
        = .ok { Frames := [{ Name := "svc.KEY", RefID := "A",
                             Fields := [Field.floats "" [F64.nan],
                                        Field.times "time" [⟨1000000000⟩]] }],
                Error := none } ∧
      query (sampleStore "KTL_DOUBLE" 2 closeRows) (sampleQuery "svc.KEY" 0 1)
        = .ok { Frames := [{ Name := "svc.KEY", RefID := "A",
                             Fields := [Field.floats "" [F64.nan],
                                        Field.times "time" [⟨300000000⟩]] }],
                Error := none } ∧
      query (sampleStore "KTL_DOUBLE" 2 infiniteRows) (sampleQuery "svc.KEY" 0 1)
        = .ok { Frames := [{ Name := "svc.KEY", RefID := "A",
                             Fields := [Field.floats "" [F64.nan],
                                        Field.times "time" [⟨2000000000⟩]] }],
                Error := none } ∧
      query (sampleStore "KTL_DOUBLE" 2 hugeRows) (sampleQuery "svc.KEY" 3 1)
        = .ok { Frames := [{ Name := "svc.KEY", RefID := "A",
                             Fields := [Field.floats "" [F64.nan],
                                        Field.times "time" [⟨2000000000⟩]] }],
                Error := none } := by
  refine ⟨by decide, by decide, by decide, by decide⟩

/-- C11 (amended). For a Scalar keyword whose count query returned `n ≥ 2`, whose first `n`
rows scan as float64 under a recognised unit conversion, carry after the conversion one and
the same finite float64, and decode to strictly increasing instants (at the nanosecond
resolution of the decoded times), each derivative option (codes 1-4) makes `query` answer
with no error and a data frame whose `n - 1` values are all `+0`. -/
theorem constant_series_derivative (db : DB) (q : DataQuery) (qm : queryModel) (kt : String)
    (n : Nat) (rs : RowSet) (s : Bool) (m : ℕ) (e : ℤ)
    (hfetch : Fetches db q qm kt (n : ℤ) rs)
    (hscalar : kt ≠ "KTL_STRING") (hn : 2 ≤ n) (hrows : n ≤ rs.rows.length)
    (hscan : ∀ r ∈ rs.rows.take n, r.scanOk kt = true)
    (hunit : 0 ≤ qm.UnitConversion ∧ qm.UnitConversion ≤ 5)
    (hT : 1 ≤ qm.Transform ∧ qm.Transform ≤ 4)
    (hconst : ∀ r ∈ rs.rows.take n,
      convertTable qm.UnitConversion r.floatValue = F64.fin s m e)
    (hasc : ∀ i, 1 ≤ i → i < n →
      ((fetchedTimes (rs.rows.take n)).getD (i - 1) default).unixNano
        < ((fetchedTimes (rs.rows.take n)).getD i default).unixNano) :
    ∃ dtimes,
      query db q = .ok { Frames := [{ Name := qm.QueryText, RefID := qm.RefId,
                                      Fields := [Field.floats ""
                                                   (List.replicate (n - 1) F64.zero),
                                                 Field.times "time" dtimes] }],
                         Error := none } ∧
      dtimes.length = n - 1 := by
  have hlen : (rs.rows.take n).length = n := by simp [hrows]
  have hvals : fetchedValues qm.UnitConversion (rs.rows.take n)
      = List.replicate n (F64.fin s m e) := by
    rw [List.eq_replicate_iff]
    refine ⟨by simp [fetchedValues, hrows], ?_⟩
    intro b hb
    simp only [fetchedValues, List.mem_map] at hb
    obtain ⟨r, hr, rfl⟩ := hb
    exact hconst r hr
  have hget : ∀ k, k < n →
      (fetchedValues qm.UnitConversion (rs.rows.take n)).getD k F64.zero
        = F64.fin s m e := by
    intro k hk
    rw [hvals]
    simp [List.getD_eq_getElem?_getD, List.getElem?_replicate, hk]
  have hzero : (List.range' 1 (n - 1)).map
      (fun k => derivativeRounding qm.Transform
        (differenceQuotient (fetchedTimes (rs.rows.take n))
          (fetchedValues qm.UnitConversion (rs.rows.take n)) k))
      = List.replicate (n - 1) F64.zero := by
    rw [List.eq_replicate_iff]
    refine ⟨by simp, ?_⟩
    intro b hb
    simp only [List.mem_map, List.mem_range'_1] at hb
    obtain ⟨k, ⟨hk1, hk2⟩, rfl⟩ := hb
    rw [differenceQuotient_const _ _ k s m e (hget k (by omega)) (hget (k - 1) (by omega))
      (seconds_of_later _ _ (hasc k hk1 (by omega))), derivativeRounding_zero]
  refine ⟨(List.range' 1 (n - 1)).map
    (fun k => (fetchedTimes (rs.rows.take n)).getD k default), ?_, by simp⟩
  rw [query_eq_processRows db q qm kt n rs hfetch,
    processRows_fetched kt qm _ n rs hrows hscan (Or.inr hunit)]
  simp only [hscalar, if_false]
  rw [transformStep_derivative qm _ n _ _ hT (by omega) (by simp [fetchedTimes, hrows])
    (by simp [fetchedValues, hrows])]
  simp only [buildResponse, hscalar, if_false, Rows.Err, hzero]

/-- C11 (sample). Three samples of the value 5.0 one second apart under Derivative. -/
theorem constant_series_derivative_witness :
    ∃ dtimes,
      query (sampleStore "KTL_DOUBLE" 3 constantRows) (sampleQuery "svc.KEY" 0 1)
        = .ok { Frames := [{ Name := "svc.KEY", RefID := "A",
                             Fields := [Field.floats ""
                                          (List.replicate (3 - 1) F64.zero),
                                        Field.times "time" dtimes] }],
                Error := none } ∧
      dtimes.length = 3 - 1 :=
  constant_series_derivative (sampleStore "KTL_DOUBLE" 3 constantRows)
    (sampleQuery "svc.KEY" 0 1) (sampleModel "svc.KEY" 0 1) "KTL_DOUBLE" 3
    ⟨constantRows, none⟩ false 5629499534213120 (-50)
    ⟨rfl, rfl, "svc", "KEY", [], by decide, by decide, by decide, by decide⟩
    (by decide) (by decide) (by decide) (by decide) (by decide) (by decide)
    (by decide)
    (by
      intro i h1 h3
      have h : i = 1 ∨ i = 2 := by omega
      rcases h with h | h <;> subst h <;> decide)

/-- The constant series of the sample under each of the four derivative options, evaluated:
both outputs are `+0`. -/
theorem scenario_constant_series :
    ∀ T ∈ [1, 2, 3, 4],
      query (sampleStore "KTL_DOUBLE" 3 constantRows) (sampleQuery "svc.KEY" 0 T)
        = .ok { Frames := [{ Name := "svc.KEY", RefID := "A",
                             Fields := [Field.floats "" [F64.zero, F64.zero],
                                        Field.times "time"
                                          [⟨2000000000⟩, ⟨3000000000⟩]] }],
                Error := none } := by
  decide

/-! ## A fetch shorter than the count -/

/-- A count of 5 against the three scenario rows, evaluated: the third sample `(3 s, 4.0)`
fills the slots 3 and 4. -/
theorem scenario_short_fetch :
    query (sampleStore "KTL_DOUBLE" 5 scenarioRows) (sampleQuery "svc.KEY" 0 0) = .ok
      { Frames := [{ Name := "svc.KEY", RefID := "A",
                     Fields := [Field.floats ""
                       [F64.ofInt 1, F64.ofInt 2, F64.ofInt 4, F64.ofInt 4, F64.ofInt 4],
                       Field.times "time" [⟨1000000000⟩, ⟨2000000000⟩, ⟨3000000000⟩,
                         ⟨3000000000⟩, ⟨3000000000⟩]] }],
        Error := none } := by
  decide

/-- A cursor that stops on an iteration error after its rows: the frame is built all the
same and the response carries the row error. -/
theorem short_fetch_with_failure :
    (query { sampleStore "KTL_DOUBLE" 2 [] with
              Query := fun _ _ _ _ =>
                .ok ⟨[scalarRow (F64.ofInt 1) (F64.ofInt 1)], some "connection reset"⟩ }
        (sampleQuery "svc.KEY" 0 0)).map (fun r => r.Error)
      = .ok (some (Error.rowQuery "connection reset")) := by
  decide

end Plugin
